import Mathlib

set_option maxHeartbeats 1000000
set_option maxRecDepth 10000
set_option linter.unusedVariables false

/-!
Verification development for the Aura action execution engine
(src/aura_core/agents/action_agent.py, src/aura_core/agents/perception_agent.py,
src/aura_core/main_orchestrator.py).

The embedding models Python values as an inductive JVal, Python dicts as
insertion-ordered association lists with unique keys maintained by the
update operation, and the external collaborators (OS interaction,
accessibility backend, vision backend, generation backend, credential
store, UI callback) as oracle functions bundled in a Services structure.
A computation that would raise an uncaught Python exception is modelled
as Option.none.
-/

/-- Python runtime values as they occur in the action engine: None, bool,
numbers (modelled by Int; the int/float distinction is irrelevant to the
claims), str, and list. -/
inductive JVal where
  | null : JVal
  | bool : Bool → JVal
  | num : Int → JVal
  | str : String → JVal
  | list : List JVal → JVal
  deriving Repr, Inhabited

mutual

def JVal.decEq : (a b : JVal) → Decidable (a = b)
  | .null, .null => isTrue rfl
  | .bool a, .bool b =>
    if h : a = b then isTrue (by rw [h]) else isFalse (by intro hc; cases hc; exact h rfl)
  | .num a, .num b =>
    if h : a = b then isTrue (by rw [h]) else isFalse (by intro hc; cases hc; exact h rfl)
  | .str a, .str b =>
    if h : a = b then isTrue (by rw [h]) else isFalse (by intro hc; cases hc; exact h rfl)
  | .list a, .list b =>
    match JVal.decEqList a b with
    | isTrue h => isTrue (by rw [h])
    | isFalse h => isFalse (by intro hc; cases hc; exact h rfl)
  | .null, .bool _ => isFalse (by intro h; cases h)
  | .null, .num _ => isFalse (by intro h; cases h)
  | .null, .str _ => isFalse (by intro h; cases h)
  | .null, .list _ => isFalse (by intro h; cases h)
  | .bool _, .null => isFalse (by intro h; cases h)
  | .bool _, .num _ => isFalse (by intro h; cases h)
  | .bool _, .str _ => isFalse (by intro h; cases h)
  | .bool _, .list _ => isFalse (by intro h; cases h)
  | .num _, .null => isFalse (by intro h; cases h)
  | .num _, .bool _ => isFalse (by intro h; cases h)
  | .num _, .str _ => isFalse (by intro h; cases h)
  | .num _, .list _ => isFalse (by intro h; cases h)
  | .str _, .null => isFalse (by intro h; cases h)
  | .str _, .bool _ => isFalse (by intro h; cases h)
  | .str _, .num _ => isFalse (by intro h; cases h)
  | .str _, .list _ => isFalse (by intro h; cases h)
  | .list _, .null => isFalse (by intro h; cases h)
  | .list _, .bool _ => isFalse (by intro h; cases h)
  | .list _, .num _ => isFalse (by intro h; cases h)
  | .list _, .str _ => isFalse (by intro h; cases h)

def JVal.decEqList : (xs ys : List JVal) → Decidable (xs = ys)
  | [], [] => isTrue rfl
  | [], _ :: _ => isFalse (by intro h; cases h)
  | _ :: _, [] => isFalse (by intro h; cases h)
  | x :: xs, y :: ys =>
    match JVal.decEq x y with
    | isTrue h1 =>
      match JVal.decEqList xs ys with
      | isTrue h2 => isTrue (by rw [h1, h2])
      | isFalse h2 => isFalse (by intro hc; cases hc; exact h2 rfl)
    | isFalse h1 => isFalse (by intro hc; cases hc; exact h1 rfl)

end

instance : DecidableEq JVal := JVal.decEq

/-- A Python dict with string keys: insertion-ordered association list. -/
abbrev Dict := List (String × JVal)

/-- dict.get(k): the value at the first entry with key k, if any. -/
def dget (d : Dict) (k : String) : Option JVal :=
  (d.find? (fun kv => kv.1 == k)).map (fun kv => kv.2)

/-- dict.get(k, default). -/
def dGetD (d : Dict) (k : String) (v : JVal) : JVal :=
  (dget d k).getD v

/-- k in dict. -/
def hasKey (d : Dict) (k : String) : Bool :=
  (dget d k).isSome

/-- dict[k] = v: replace the first entry with key k in place, else append. -/
def dset (d : Dict) (k : String) (v : JVal) : Dict :=
  match d with
  | [] => [(k, v)]
  | kv :: rest => if kv.1 == k then (k, v) :: rest else kv :: dset rest k v

/-- del dict[k]: removes every entry with key k. -/
def derase (d : Dict) (k : String) : Dict :=
  d.filter (fun kv => kv.1 != k)

/-- c.update(r): Python dict update, existing keys keep their position,
new keys are appended in iteration order of r. -/
def dictUpdate (c r : Dict) : Dict :=
  r.foldl (fun acc kv => dset acc kv.1 kv.2) c

/-- Python truthiness for JVal. -/
def pyTruthy : JVal → Bool
  | .null => false
  | .bool b => b
  | .num n => n != 0
  | .str s => !s.isEmpty
  | .list xs => !xs.isEmpty

mutual

/-- Python repr for values, used by str on lists. String escaping inside
repr is not modelled since no claim depends on it. -/
def pyRepr : JVal → String
  | .null => "None"
  | .bool true => "True"
  | .bool false => "False"
  | .num n => toString n
  | .str s => "\x27" ++ s ++ "\x27"
  | .list xs => "[" ++ String.intercalate ", " (pyReprList xs) ++ "]"

def pyReprList : List JVal → List String
  | [] => []
  | v :: vs => pyRepr v :: pyReprList vs

end

/-- Python str() of a value, as used by f-strings and by the template
resolver. -/
def pyStr : JVal → String
  | .null => "None"
  | .bool true => "True"
  | .bool false => "False"
  | .num n => toString n
  | .str s => s
  | .list xs => pyRepr (.list xs)

/-- ASCII whitespace characters matched by the regex whitespace class and
by str.strip(). -/
def isSpaceChar (c : Char) : Bool :=
  c = ' ' || c = '\t' || c = '\n' || c = '\r' || c = '\x0b' || c = '\x0c'

/-- Python str.strip(): drop whitespace at both ends. -/
def pyStrip (s : String) : String :=
  String.mk (((s.toList.dropWhile isSpaceChar).reverse.dropWhile isSpaceChar).reverse)

/-- Bool test that nl is a contiguous sublist of hl. -/
def listInfixB (nl hl : List Char) : Bool :=
  (List.range (hl.length + 1)).any (fun i => nl.isPrefixOf (hl.drop i))

/-- needle in haystack for strings. -/
def strContainsB (hay needle : String) : Bool :=
  listInfixB needle.toList hay.toList

/-- Python str.lower() restricted to ASCII case mapping. -/
def pyLower (s : String) : String :=
  String.mk (s.toList.map Char.toLower)

/- ===================== Context Resolver =====================
Model of ActionAgent resolve context variable
(src/aura_core/agents/action_agent.py lines 79-97): re.sub over the
pattern opening double brace, optional whitespace, word characters,
optional whitespace, closing double brace, with the replacement
str(context.get(name, literal reference without whitespace)), iterated
up to 5 passes with early stop on a pass that changes nothing. -/

/-- Word characters of the regex character class: ASCII letters, digits,
underscore. -/
def isWordChar (c : Char) : Bool :=
  c.isAlphanum || c = '_'

/-- Try to match the variable-reference pattern at the head of the
character list. On success returns the captured name and the characters
following the match. Greedy maximal munch is exact for this pattern
because the space, word and brace character classes are disjoint. -/
def matchRef : List Char → Option (String × List Char)
  | c1 :: c2 :: rest =>
    if c1 = '\x7b' ∧ c2 = '\x7b' then
      let r1 := rest.dropWhile isSpaceChar
      let name := r1.takeWhile isWordChar
      if name.isEmpty then none
      else
        match (r1.drop name.length).dropWhile isSpaceChar with
        | d1 :: d2 :: r3 => if d1 = '\x7d' ∧ d2 = '\x7d' then some (String.mk name, r3) else none
        | _ => none
    else none
  | _ => none

theorem length_dropWhile_le' (p : Char → Bool) (l : List Char) :
    (l.dropWhile p).length ≤ l.length := by
  induction l with
  | nil => simp [List.dropWhile]
  | cons c cs ih =>
    by_cases h : p c
    · simp [List.dropWhile, h]; omega
    · simp [List.dropWhile, h]

theorem matchRef_len {l : List Char} {n : String} {r : List Char}
    (h : matchRef l = some (n, r)) : r.length < l.length := by
  match l with
  | [] => simp [matchRef] at h
  | [c] => simp [matchRef] at h
  | c1 :: c2 :: rest =>
    simp only [matchRef] at h
    split at h
    · split at h
      · exact absurd h (by simp)
      · split at h
        next d1 d2 r3 heq =>
          split at h
          · simp only [Option.some.injEq, Prod.mk.injEq] at h
            obtain ⟨-, hr⟩ := h
            subst hr
            have h1 : (d1 :: d2 :: r3).length ≤
                ((List.dropWhile isSpaceChar rest).drop
                  ((List.dropWhile isSpaceChar rest).takeWhile isWordChar).length).length := by
              rw [← heq]
              exact length_dropWhile_le' _ _
            have h2 : ((List.dropWhile isSpaceChar rest).drop
                ((List.dropWhile isSpaceChar rest).takeWhile isWordChar).length).length ≤
                (List.dropWhile isSpaceChar rest).length := by
              simp [List.length_drop]
            have h3 : (List.dropWhile isSpaceChar rest).length ≤ rest.length :=
              length_dropWhile_le' _ _
            simp only [List.length_cons] at h1 ⊢
            omega
          · exact absurd h (by simp)
        next heq => exact absurd h (by simp)
    · exact absurd h (by simp)

/-- The replacement text for one matched reference:
str(context.get(name, literal reference with no inner whitespace)). -/
def refReplacement (ctx : Dict) (name : String) : String :=
  pyStr (dGetD ctx name (.str ("\x7b\x7b" ++ name ++ "\x7d\x7d")))

/-- One left-to-right non-overlapping substitution pass of re.sub, with
fuel for structural recursion. The fuel never runs out when it starts at
the length of the input, because each step consumes at least one
character. -/
def substPassF (ctx : Dict) : Nat → List Char → List Char
  | 0, l => l
  | fuel + 1, l =>
    match matchRef l with
    | some (name, rest) => (refReplacement ctx name).toList ++ substPassF ctx fuel rest
    | none =>
      match l with
      | [] => []
      | c :: cs => c :: substPassF ctx fuel cs

/-- One substitution pass of re.sub over a character list. -/
def substPass (ctx : Dict) (l : List Char) : List Char :=
  substPassF ctx l.length l

theorem substPassF_congr (ctx : Dict) :
    ∀ (f1 : Nat) (l : List Char) (f2 : Nat), l.length ≤ f1 → l.length ≤ f2 →
      substPassF ctx f1 l = substPassF ctx f2 l := by
  intro f1
  induction f1 with
  | zero =>
    intro l f2 h1 _
    have : l = [] := List.length_eq_zero.mp (Nat.le_zero.mp h1)
    subst this
    cases f2 <;> simp [substPassF, matchRef]
  | succ f ih =>
    intro l f2 h1 h2
    match l with
    | [] => cases f2 <;> simp [substPassF, matchRef]
    | c :: cs =>
      match f2 with
      | 0 => exact absurd h2 (by simp)
      | g + 1 =>
        cases hm : matchRef (c :: cs) with
        | some pr =>
          obtain ⟨name, rest⟩ := pr
          have hlt := matchRef_len hm
          simp only [List.length_cons] at hlt h1 h2
          simp only [substPassF, hm]
          rw [ih rest g (by omega) (by omega)]
        | none =>
          simp only [List.length_cons] at h1 h2
          simp only [substPassF, hm]
          rw [ih cs g (by omega) (by omega)]

theorem substPass_nil (ctx : Dict) : substPass ctx [] = [] := rfl

theorem substPass_match {l : List Char} {name : String} {rest : List Char} (ctx : Dict)
    (h : matchRef l = some (name, rest)) :
    substPass ctx l = (refReplacement ctx name).toList ++ substPass ctx rest := by
  match l with
  | [] => simp [matchRef] at h
  | c :: cs =>
    unfold substPass
    simp only [List.length_cons, substPassF, h]
    have hlt := matchRef_len h
    simp only [List.length_cons] at hlt
    rw [substPassF_congr ctx cs.length rest rest.length (by omega) (by omega)]

theorem substPass_nomatch {c : Char} {cs : List Char} (ctx : Dict)
    (h : matchRef (c :: cs) = none) :
    substPass ctx (c :: cs) = c :: substPass ctx cs := by
  unfold substPass
  simp only [List.length_cons, substPassF, h]

/-- Whether the pattern matches anywhere in the list. -/
def hasMatchL : List Char → Bool
  | [] => false
  | c :: cs => (matchRef (c :: cs)).isSome || hasMatchL cs

/-- One substitution pass at string level. -/
def substOnce (ctx : Dict) (s : String) : String :=
  String.mk (substPass ctx s.toList)

/-- The bounded fixed-point loop: up to fuel passes, stopping early when a
pass changes nothing. -/
def resolveLoop (ctx : Dict) : Nat → String → String
  | 0, s => s
  | n + 1, s =>
    let s' := substOnce ctx s
    if s' = s then s else resolveLoop ctx n s'

/-- The string-level resolver: 5 bounded substitution passes. -/
def resolveStr (ctx : Dict) (t : String) : String :=
  resolveLoop ctx 5 t

/-- ActionAgent resolve context variable: None maps to None, strings are
resolved, any other input raises TypeError inside re.sub which the
except branch turns into returning the input unchanged. -/
def resolve_context_variable (ctx : Dict) : JVal → JVal
  | .null => .null
  | .str s => .str (resolveStr ctx s)
  | v => v

example : resolveStr [("name", .str "World")] "Hello \x7b\x7bname\x7d\x7d" = "Hello World" := by
  decide

example : resolveStr [] "\x7b\x7b foo \x7d\x7d" = "\x7b\x7bfoo\x7d\x7d" := by decide

example :
    resolveStr [("a", .str "\x7b\x7bb\x7d\x7d"), ("b", .str "\x7b\x7ba\x7d\x7d")]
      "\x7b\x7ba\x7d\x7d" = "\x7b\x7bb\x7d\x7d" := by decide

/- ===================== Coordinate Mapper =====================
Model of the vision-coordinate translation repeated at
src/aura_core/agents/action_agent.py lines 180-185, 327-338, 542-548 and
604-614: abs = rel unchanged when bounds is None or bounds width is the
full-screen sentinel -1, else abs = (left + rel_x, top + rel_y). Python
addition of an int and a non-number raises TypeError, modelled as none;
a bool operand behaves as 0 or 1. -/

def jAdd (base : Int) : JVal → Option JVal
  | .num m => some (.num (base + m))
  | .bool b => some (.num (base + (if b then 1 else 0)))
  | _ => none

def mapCoords (rx ry : JVal) : Option (Int × Int × Int × Int) → Option (JVal × JVal)
  | none => some (rx, ry)
  | some (l, t, w, _h) =>
    if w = -1 then some (rx, ry)
    else
      match jAdd l rx, jAdd t ry with
      | some ax, some ay => some (ax, ay)
      | _, _ => none

/- ===================== Vision response validation =====================
Model of PerceptionAgent get_element_coordinates_via_vision from the
point where the backend response has been JSON-parsed to a dict
(src/aura_core/agents/perception_agent.py lines 112-129). raw is the raw
response text stored under raw_output, cleaned the stripped text stored
under raw in the malformed branch. A present non-string reasoning value
makes the string concatenation raise TypeError, which the surrounding
except turns into the parse-error dict. -/

def visionKeys : List String :=
  ["x_center", "y_center", "x_top_left", "y_top_left", "width", "height"]

/-- isinstance(v, (int, float)); Python bool is a subclass of int. -/
def isNumericJ : JVal → Bool
  | .num _ => true
  | .bool _ => true
  | _ => false

/-- parsed.get(k) is None or not a numeric instance. -/
def badKeyAt (d : Dict) (k : String) : Bool :=
  match dget d k with
  | none => true
  | some .null => true
  | some v => !isNumericJ v

def validate_parsed_coords (raw cleaned : String) (d : Dict) : Dict :=
  if hasKey d "found" = false then
    [("found", .bool false), ("reasoning", .str "Malformed JSON from vision."),
     ("raw", .str cleaned)]
  else if pyTruthy (dGetD d "found" .null) then
    match visionKeys.find? (badKeyAt d) with
    | none => dset d "raw_output" (.str raw)
    | some k =>
      match dget d "reasoning" with
      | some (.str r0) =>
        dset (dset (dset d "found" (.bool false)) "reasoning"
          (.str (r0 ++ " Invalid coord: " ++ k ++ "."))) "raw_output" (.str raw)
      | none =>
        dset (dset (dset d "found" (.bool false)) "reasoning"
          (.str (" Invalid coord: " ++ k ++ "."))) "raw_output" (.str raw)
      | some _ =>
        [("found", .bool false), ("reasoning", .str "JSON parse error: TypeError."),
         ("raw", .str raw)]
  else dset d "raw_output" (.str raw)

/- ===================== Resolver lemmas ===================== -/

theorem word_not_space {c : Char} (h : isWordChar c = true) : isSpaceChar c = false := by
  by_contra hsp
  rw [Bool.not_eq_false] at hsp
  simp only [isSpaceChar, Bool.or_eq_true, decide_eq_true_eq] at hsp
  rcases hsp with ((((h1 | h1) | h1) | h1) | h1) | h1 <;> subst h1 <;>
    exact absurd h (by decide)

theorem space_not_word {c : Char} (h : isSpaceChar c = true) : isWordChar c = false := by
  by_contra hw
  rw [Bool.not_eq_false] at hw
  exact absurd h (by rw [word_not_space hw]; simp)

theorem dropWhile_append_all {p : Char → Bool} {a : List Char} (r : List Char)
    (h : ∀ c ∈ a, p c = true) : (a ++ r).dropWhile p = r.dropWhile p := by
  induction a with
  | nil => rfl
  | cons c cs ih =>
    have hc : p c = true := h c (by simp)
    simp only [List.cons_append, List.dropWhile_cons, hc, if_true]
    exact ih (fun x hx => h x (by simp [hx]))

theorem takeWhile_append_all {p : Char → Bool} {a : List Char} (r : List Char)
    (h : ∀ c ∈ a, p c = true) : (a ++ r).takeWhile p = a ++ r.takeWhile p := by
  induction a with
  | nil => rfl
  | cons c cs ih =>
    have hc : p c = true := h c (by simp)
    simp only [List.cons_append, List.takeWhile_cons, hc, if_true]
    rw [ih (fun x hx => h x (by simp [hx]))]

theorem matchRef_none_of_head {c : Char} {cs : List Char} (h : c ≠ '\x7b') :
    matchRef (c :: cs) = none := by
  match cs with
  | [] => rfl
  | c2 :: rest => simp [matchRef, h]

theorem substPass_append_nobrace (ctx : Dict) {pre : List Char} (r : List Char)
    (h : ∀ c ∈ pre, c ≠ '\x7b') :
    substPass ctx (pre ++ r) = pre ++ substPass ctx r := by
  induction pre with
  | nil => rfl
  | cons c cs ih =>
    have hc : c ≠ '\x7b' := h c (by simp)
    rw [List.cons_append, substPass_nomatch ctx (matchRef_none_of_head hc),
      ih (fun x hx => h x (by simp [hx]))]
    rfl

theorem substPass_nobrace (ctx : Dict) {l : List Char} (h : ∀ c ∈ l, c ≠ '\x7b') :
    substPass ctx l = l := by
  have := substPass_append_nobrace ctx ([] : List Char) h
  simpa [substPass_nil] using this

theorem substPass_of_no_match (ctx : Dict) {l : List Char} (h : hasMatchL l = false) :
    substPass ctx l = l := by
  induction l with
  | nil => rfl
  | cons c cs ih =>
    simp only [hasMatchL, Bool.or_eq_false_iff] at h
    obtain ⟨h1, h2⟩ := h
    have h1' : matchRef (c :: cs) = none := by
      cases hm : matchRef (c :: cs) with
      | none => rfl
      | some pr => rw [hm] at h1; simp at h1
    rw [substPass_nomatch ctx h1', ih h2]

theorem matchRef_ref (ws1 name ws2 rest : List Char)
    (hws1 : ∀ c ∈ ws1, isSpaceChar c = true)
    (hname : name ≠ []) (hword : ∀ c ∈ name, isWordChar c = true)
    (hws2 : ∀ c ∈ ws2, isSpaceChar c = true) :
    matchRef ('\x7b' :: '\x7b' :: (ws1 ++ name ++ ws2 ++ '\x7d' :: '\x7d' :: rest)) =
      some (String.mk name, rest) := by
  have hdrop1 : (ws1 ++ name ++ ws2 ++ '\x7d' :: '\x7d' :: rest).dropWhile isSpaceChar =
      name ++ ws2 ++ '\x7d' :: '\x7d' :: rest := by
    rw [List.append_assoc, List.append_assoc, dropWhile_append_all _ hws1,
      ← List.append_assoc]
    match name with
    | [] => exact absurd rfl hname
    | n0 :: name' =>
      have : isSpaceChar n0 = false := word_not_space (hword n0 (by simp))
      simp [List.dropWhile_cons, this]
  have htake : (name ++ ws2 ++ '\x7d' :: '\x7d' :: rest).takeWhile isWordChar = name := by
    rw [List.append_assoc, takeWhile_append_all _ hword]
    have : (ws2 ++ '\x7d' :: '\x7d' :: rest).takeWhile isWordChar = [] := by
      match ws2 with
      | [] =>
        have hb : isWordChar '\x7d' = false := by decide
        simp [List.takeWhile_cons, hb]
      | w0 :: ws2' =>
        have : isWordChar w0 = false := space_not_word (hws2 w0 (by simp))
        simp [List.takeWhile_cons, this]
    rw [this, List.append_nil]
  have hdrop2 : ((name ++ ws2 ++ '\x7d' :: '\x7d' :: rest).drop name.length).dropWhile
      isSpaceChar = '\x7d' :: '\x7d' :: rest := by
    rw [List.append_assoc, List.drop_left, dropWhile_append_all _ hws2]
    have hb : isSpaceChar '\x7d' = false := by decide
    simp [List.dropWhile_cons, hb]
  simp only [matchRef, hdrop1, htake, hdrop2]
  have : name.isEmpty = false := by
    match name with
    | [] => exact absurd rfl hname
    | _ :: _ => rfl
  simp [this]

theorem resolveLoop_fix {ctx : Dict} {s : String} (h : substOnce ctx s = s) :
    ∀ n, resolveLoop ctx n s = s := by
  intro n
  cases n with
  | zero => rfl
  | succ m => simp [resolveLoop, h]

theorem resolveLoop_iterate (ctx : Dict) :
    ∀ (n : Nat) (s : String), ∃ k ≤ n, resolveLoop ctx n s = (substOnce ctx)^[k] s := by
  intro n
  induction n with
  | zero => intro s; exact ⟨0, Nat.le_refl 0, rfl⟩
  | succ m ih =>
    intro s
    by_cases h : substOnce ctx s = s
    · exact ⟨0, Nat.zero_le _, by simp [resolveLoop, h]⟩
    · obtain ⟨k, hk, heq⟩ := ih (substOnce ctx s)
      refine ⟨k + 1, by omega, ?_⟩
      simp only [resolveLoop, if_neg h]
      rw [heq, Function.iterate_succ_apply]

/- ===================== Action Dispatcher =====================
Model of ActionAgent.execute_action (src/aura_core/agents/action_agent.py
lines 99-779). External collaborators are oracle functions; the hasX
flags model the optionally-missing services checked at lines 116-130.
The events list instruments the collaborator calls the claims reason
about, appended exactly at the call sites. -/

/-- Python x or y on values. -/
def pyOr (a b : JVal) : JVal :=
  if pyTruthy a then a else b

structure Services where
  hasOS : Bool
  hasPerception : Bool
  hasCredMan : Bool
  hasGemini : Bool
  hasAccessibility : Bool
  hasCallback : Bool
  currentOS : String
  getWindow : JVal → Option String
  findElement : String → JVal → JVal → JVal → JVal → JVal → Option String
  clickElement : String → Bool
  setElementText : String → JVal → Bool
  getElementProps : String → Option Dict
  activateWindow : JVal → Bool
  clickAt : JVal → JVal → Bool
  typeText : JVal → JVal → Bool
  pressKey : JVal → JVal → Bool
  openApplication : JVal → JVal → JVal → Bool × Option String
  closeApplicationWindow : JVal → Bool
  searchWeb : JVal → Bool
  visionLocate : JVal → JVal → JVal → Option Dict × Option (Int × Int × Int × Int)
  analyzeScreen : JVal → JVal → Dict
  generateText : JVal → Option String
  credIsInitialized : Bool
  credIsUnlocked : Bool
  setupMasterPassword : String → Bool
  unlockStore : String → Bool
  getCredential : JVal → Option (String × String)
  addOrUpdateCredential : String → String → String → Bool
  cbMasterPassword : Bool → Option String
  cbServiceCredential : JVal → JVal → Option (String × String × String × Bool)

inductive Event where
  | evGetWindow (hint : JVal)
  | evActivateWindow (t : JVal)
  | evVisionLocate (desc : JVal)
  | evClickAt (x y : JVal)
  | evTypeText
  | evPressKey (k : JVal)
  | evSleep
  | evGenerate
  | evAnalyzeScreen
  | evOpenApplication
  | evCloseApplication
  | evSearchWeb
  deriving Repr, DecidableEq

/-- Whether the trace contains a vision locate call. -/
def hasVisionEvent (evs : List Event) : Bool :=
  evs.any (fun e => match e with | .evVisionLocate _ => true | _ => false)

structure ExecResult where
  success : Bool
  data : Option Dict
  events : List Event
  deriving Repr, DecidableEq

/-- One action step: action_type tag plus parameters dict. -/
structure ActionStep where
  action_type : String
  parameters : Dict
  deriving Repr, DecidableEq

/-- (data.get(error, empty) + msg).strip() stored back under error; a
present non-string error value makes the concatenation raise TypeError. -/
def appendErrStr (d : Dict) (msg : String) : Option Dict :=
  match dget d "error" with
  | none => some (dset d "error" (.str (pyStrip msg)))
  | some (.str s) => some (dset d "error" (.str (pyStrip (s ++ msg))))
  | some _ => none

/-- element and click_element(element): the click happens only when the
element was found, and the combined expression is the branch condition. -/
def accClickTry (svc : Services) (w : String) (ename ctype aid fid cre : JVal) : Bool :=
  match svc.findElement w ename ctype aid fid cre with
  | some e => svc.clickElement e
  | none => false

/-- coords_info.get(x_center) is not None. -/
def xCenterNotNone (cd : Dict) : Bool :=
  match dget cd "x_center" with
  | some v => !(v == JVal.null)
  | none => false

/-- The coords_info truthiness-and-shape guard shared by all vision arms:
coords_info and coords_info.get(found) and coords_info.get(x_center) is
not None. -/
def visionHit (ci : Option Dict) : Bool :=
  match ci with
  | some cd => !cd.isEmpty && pyTruthy (dGetD cd "found" .null) && xCenterNotNone cd
  | none => false

/-- The reason string of the vision-miss branches:
coords_info.get(reasoning, Not found) if coords_info else Perception
fail. -/
def visionMissReason (ci : Option Dict) : String :=
  match ci with
  | some cd => if !cd.isEmpty then pyStr (dGetD cd "reasoning" (.str "Not found")) else "Perception fail."
  | none => "Perception fail."

/-- Vision fallback tail of click_element_by_accessibility (lines
176-196): locate, translate coordinates, raw click. -/
def visionFallbackClick (svc : Services) (d0 : Dict) (desc effT : JVal)
    (evs0 : List Event) : Option ExecResult :=
  match svc.visionLocate desc effT (.str "") with
  | (ci, sb) =>
    let evs := evs0 ++ [.evVisionLocate desc]
    if visionHit ci then
      match ci with
      | some cd =>
        match dget cd "x_center", dget cd "y_center" with
        | some rx, some ry =>
          match mapCoords rx ry sb with
          | some (ax, ay) =>
            let evs := evs ++ [.evClickAt ax ay]
            if svc.clickAt ax ay then
              some ⟨true, some (dset d0 "info" (.str ("Clicked (fallback vision) \x27" ++
                pyStr desc ++ "\x27 at (" ++ pyStr ax ++ "," ++ pyStr ay ++ ")."))), evs⟩
            else
              (appendErrStr d0 (" Vision fallback click failed at (" ++ pyStr ax ++ "," ++
                pyStr ay ++ ").")).map (fun d => ⟨false, some d, evs⟩)
          | none => none
        | _, _ => none
      | none => none
    else
      (appendErrStr d0 (" Vision fallback: Element \x27" ++ pyStr desc ++
        "\x27 not found: " ++ visionMissReason ci ++ ".")).map
        (fun d => ⟨false, some d, evs⟩)

/-- click_element_by_accessibility handler (lines 133-198). -/
def handleAccClick (svc : Services) (params ctx : Dict) (effT : JVal) : Option ExecResult :=
  let target := pyOr (resolve_context_variable ctx (dGetD params "target_window_title" .null)) effT
  let ename := resolve_context_variable ctx (dGetD params "element_name" .null)
  let ctype := dGetD params "control_type" .null
  let aid := dGetD params "automation_id" .null
  let fid := dGetD params "framework_id" .null
  let cre := dGetD params "class_name_re" .null
  let desc := pyOr ename (pyOr (dGetD params "element_description" .null)
    (.str "the described element"))
  if !pyTruthy target || !(pyTruthy ename || pyTruthy aid || pyTruthy cre) then
    some ⟨false, some [("error", .str
      "Missing target_window_title or element identifier for click_element_by_accessibility.")], []⟩
  else
    match svc.getWindow target with
    | none =>
      some ⟨false, some [("error", .str ("Window \x27" ++ pyStr target ++
        "\x27 not found for accessibility click."))], [.evGetWindow target]⟩
    | some w =>
      if accClickTry svc w ename ctype aid fid cre then
        some ⟨true, some [("info", .str ("Clicked element \x27" ++ pyStr (pyOr ename aid) ++
          "\x27 in \x27" ++ pyStr target ++ "\x27 via accessibility."))], [.evGetWindow target]⟩
      else
        let d0 : Dict := [("warning_accessibility_failed", .str ("Element \x27" ++
          pyStr (pyOr ename aid) ++ "\x27 (type: " ++ pyStr ctype ++
          ") not found or click failed via accessibility in \x27" ++ pyStr target ++ "\x27.")),
          ("info", .str "Attempting vision-based fallback...")]
        if !svc.hasPerception then
          (appendErrStr d0 " PerceptionAgent unavailable for fallback.").map
            (fun d => ⟨false, some d, [.evGetWindow target]⟩)
        else
          if pyTruthy effT && !svc.activateWindow effT then
            (appendErrStr d0 (" Could not activate window \x27" ++ pyStr effT ++
              "\x27 for vision fallback.")).map
              (fun d => ⟨false, some d, [.evGetWindow target, .evActivateWindow effT]⟩)
          else
            let evs0 := if pyTruthy effT then
              [Event.evGetWindow target, Event.evActivateWindow effT]
              else [Event.evGetWindow target]
            visionFallbackClick svc d0 desc effT evs0

/-- Vision fallback tail of type_text_into_element_by_accessibility
(lines 307-382): locate, translate, raw click, raw type. -/
def visionFallbackType (svc : Services) (d0 : Dict) (desc effT text : JVal)
    (evs0 : List Event) : Option ExecResult :=
  match svc.visionLocate desc effT (.str "") with
  | (ci, sb) =>
    let evs := evs0 ++ [.evVisionLocate desc]
    if visionHit ci then
      match ci with
      | some cd =>
        match dget cd "x_center", dget cd "y_center" with
        | some rx, some ry =>
          match mapCoords rx ry sb with
          | some (ax, ay) =>
            let evs := evs ++ [.evClickAt ax ay]
            if svc.clickAt ax ay then
              let evs := evs ++ [.evSleep, .evTypeText]
              if svc.typeText text .null then
                some ⟨true, some (dset d0 "info" (.str ("Typed (fallback vision) into \x27" ++
                  pyStr desc ++ "\x27."))), evs⟩
              else
                (appendErrStr d0 (" Vision fallback type failed after click \x27" ++
                  pyStr desc ++ "\x27.")).map (fun d => ⟨false, some d, evs⟩)
            else
              (appendErrStr d0 (" Vision fallback click failed for \x27" ++ pyStr desc ++
                "\x27.")).map (fun d => ⟨false, some d, evs⟩)
          | none => none
        | _, _ => none
      | none => none
    else
      (appendErrStr d0 (" Vision fallback: Element \x27" ++ pyStr desc ++
        "\x27 not found: " ++ visionMissReason ci ++ ".")).map
        (fun d => ⟨false, some d, evs⟩)

/-- type_text_into_element_by_accessibility handler (lines 201-398). -/
def handleAccType (svc : Services) (params ctx : Dict) (effT : JVal) : Option ExecResult :=
  let textT := dGetD params "text_to_type" .null
  let target := pyOr (resolve_context_variable ctx (dGetD params "target_window_title" .null)) effT
  let ename := resolve_context_variable ctx (dGetD params "element_name" .null)
  let ctype := dGetD params "control_type" (.str "Edit")
  let aid := dGetD params "automation_id" .null
  let fid := dGetD params "framework_id" .null
  let cre := dGetD params "class_name_re" .null
  let desc := pyOr ename (pyOr (dGetD params "element_description" .null)
    (.str "the described text field"))
  if !pyTruthy textT || !pyTruthy target || !(pyTruthy ename || pyTruthy aid || pyTruthy cre) then
    some ⟨false, some [("error", .str
      "Missing parameters for type_text_into_element_by_accessibility.")], []⟩
  else
    let text := resolve_context_variable ctx textT
    if text == JVal.null then
      some ⟨false, some [("error", .str ("Could not resolve text template: \x27" ++
        pyStr textT ++ "\x27"))], []⟩
    else
      match svc.getWindow target with
      | none =>
        some ⟨false, some [("error", .str ("Window \x27" ++ pyStr target ++
          "\x27 not found for accessibility typing."))], [.evGetWindow target]⟩
      | some w =>
        match svc.findElement w ename ctype aid fid cre with
        | none =>
          some ⟨false, some [("error", .str ("Element (name=\x27" ++ pyStr ename ++
            "\x27, auto_id=\x27" ++ pyStr aid ++ "\x27, class_re=\x27" ++ pyStr cre ++
            "\x27) not found for typing in \x27" ++ pyStr target ++ "\x27."))],
            [.evGetWindow target]⟩
        | some e =>
          let evs := [Event.evGetWindow target, Event.evSleep]
          if svc.setElementText e text then
            some ⟨true, some [("info", .str ("Typed into element \x27" ++
              pyStr (pyOr ename aid) ++ "\x27 via accessibility."))], evs⟩
          else
            let d0 : Dict := [("warning_accessibility_failed", .str
              ("Failed to set text for element \x27" ++ pyStr (pyOr ename aid) ++
               "\x27 via accessibility.")),
              ("info", .str "Attempting vision-based type fallback...")]
            if !svc.hasPerception then
              (appendErrStr d0 " PerceptionAgent unavailable for fallback.").map
                (fun d => ⟨false, some d, evs⟩)
            else
              if pyTruthy effT && !svc.activateWindow effT then
                (appendErrStr d0 (" Could not activate window \x27" ++ pyStr effT ++
                  "\x27 for vision fallback.")).map
                  (fun d => ⟨false, some d, evs ++ [.evActivateWindow effT]⟩)
              else
                let evs0 := if pyTruthy effT then evs ++ [Event.evActivateWindow effT] else evs
                visionFallbackType svc d0 desc effT text evs0

/-- get_element_text_by_accessibility handler (lines 401-434). -/
def handleAccGetText (svc : Services) (params ctx : Dict) (effT : JVal) : Option ExecResult :=
  let target := pyOr (resolve_context_variable ctx (dGetD params "target_window_title" .null)) effT
  let ename := resolve_context_variable ctx (dGetD params "element_name" .null)
  let ctype := dGetD params "control_type" .null
  let aid := dGetD params "automation_id" .null
  let store := dGetD params "store_result_as" (.str "last_element_text")
  let fid := dGetD params "framework_id" .null
  let cre := dGetD params "class_name_re" .null
  if !pyTruthy target || !(pyTruthy ename || pyTruthy aid || pyTruthy cre) then
    some ⟨false, some [("error", .str "Missing parameters for get_element_text_by_accessibility.")], []⟩
  else
    match svc.getWindow target with
    | none =>
      some ⟨false, some [("error", .str ("Window \x27" ++ pyStr target ++
        "\x27 not found for getting element text."))], [.evGetWindow target]⟩
    | some w =>
      match svc.findElement w ename ctype aid fid cre with
      | none =>
        some ⟨false, some [("error", .str ("Element (name=\x27" ++ pyStr ename ++
          "\x27, auto_id=\x27" ++ pyStr aid ++ "\x27, class_re=\x27" ++ pyStr cre ++
          "\x27) not found for getting text."))], [.evGetWindow target]⟩
      | some e =>
        let props := svc.getElementProps e
        let etext : JVal := match props with
          | some p => if !p.isEmpty then dGetD p "name" .null else .null
          | none => .null
        match etext with
        | .str s =>
          some ⟨true, some [(pyStr store, .str s), ("info", .str ("Retrieved text \x27" ++
            String.mk (s.toList.take 30) ++ "...\x27 from element."))], [.evGetWindow target]⟩
        | .null =>
          let propsStr := match props with
            | none => "None"
            | some p => "\x7b" ++ String.intercalate ", "
                (p.map (fun kv => "\x27" ++ kv.1 ++ "\x27: " ++ pyRepr kv.2)) ++ "\x7d"
          some ⟨false, some [("error", .str ("Could not retrieve text from \x27" ++
            pyStr (pyOr ename aid) ++ "\x27. Props: " ++ propsStr))], [.evGetWindow target]⟩
        | _ => none

/-- generate_text_content handler (lines 441-458). -/
def handleGenerate (svc : Services) (params ctx : Dict) : Option ExecResult :=
  let promptT := dGetD params "prompt_for_generation" .null
  let store := dGetD params "store_result_as" (.str "generated_text_content")
  let resolvedPrompt := resolve_context_variable ctx promptT
  if !pyTruthy resolvedPrompt then
    some ⟨false, some [("error", .str "Missing \x27prompt_for_generation\x27 or failed to resolve.")], []⟩
  else if !svc.hasGemini then
    some ⟨false, some [("error", .str "GeminiService unavailable for text generation.")], []⟩
  else
    match svc.generateText resolvedPrompt with
    | some t =>
      if !t.isEmpty && !strContainsB (pyLower t) "error" then
        some ⟨true, some [(pyStr store, .str t), ("info", .str "Text content generated.")],
          [.evGenerate]⟩
      else
        some ⟨false, some [("error", .str ("Failed text gen. Resp: " ++ t))], [.evGenerate]⟩
    | none =>
      some ⟨false, some [("error", .str "Failed text gen. Resp: None")], [.evGenerate]⟩

/-- A bounded model of Python float() on strings: optional surrounding
whitespace, optional sign, decimal digits with an optional fractional
part. Exponent and special forms are not modelled; no claim depends on
them. -/
def digitsVal (ds : List Char) : Nat :=
  ds.foldl (fun a c => a * 10 + (c.toNat - '0'.toNat)) 0

def pyFloatCore (r : List Char) : Option Rat :=
  let intDs := r.takeWhile Char.isDigit
  let rest := r.drop intDs.length
  match rest with
  | [] => if intDs.isEmpty then none else some ((digitsVal intDs : Int) : Rat)
  | '.' :: fr =>
    let frDs := fr.takeWhile Char.isDigit
    let rest2 := fr.drop frDs.length
    if !rest2.isEmpty then none
    else if intDs.isEmpty && frDs.isEmpty then none
    else some (((digitsVal intDs : Int) : Rat) +
      ((digitsVal frDs : Int) : Rat) / ((10 : Rat) ^ frDs.length))
  | _ => none

def pyFloatParse (s : String) : Option Rat :=
  let l := ((s.toList.dropWhile isSpaceChar).reverse.dropWhile isSpaceChar).reverse
  match l with
  | '+' :: r => pyFloatCore r
  | '-' :: r => (pyFloatCore r).map (fun q => -q)
  | r => pyFloatCore r

/-- wait handler (lines 459-488). Negative durations are clamped to zero
before the sleep; the result shape does not depend on the duration
value. -/
def handleWait (params ctx : Dict) : Option ExecResult :=
  let dparam := dGetD params "duration_seconds" (.num 1)
  match dparam with
  | .str s =>
    if strContainsB s "\x7b\x7b" then
      let resolved := resolveStr ctx s
      match pyFloatParse resolved with
      | some _ => some ⟨true, none, [.evSleep]⟩
      | none => some ⟨false, some [("error", .str ("Invalid value for wait: " ++ resolved))], []⟩
    else
      match pyFloatParse s with
      | some _ => some ⟨true, none, [.evSleep]⟩
      | none => some ⟨false, some [("error", .str ("Invalid value for wait: " ++ s))], []⟩
  | .num _ => some ⟨true, none, [.evSleep]⟩
  | .bool _ => some ⟨true, none, [.evSleep]⟩
  | .null => some ⟨false, some [("error", .str "Invalid type for wait: <class \x27NoneType\x27>")], []⟩
  | .list _ => some ⟨false, some [("error", .str "Invalid type for wait: <class \x27list\x27>")], []⟩

/-- ensure_creds_ready_for_action (lines 45-62). -/
def ensureCredsReady (svc : Services) : Bool :=
  if !svc.hasCredMan then false
  else if !svc.hasCallback then false
  else if !svc.credIsInitialized then
    match svc.cbMasterPassword true with
    | some pwd => !pwd.isEmpty && svc.setupMasterPassword pwd
    | none => false
  else if !svc.credIsUnlocked then
    match svc.cbMasterPassword false with
    | some pwd => !pwd.isEmpty && svc.unlockStore pwd
    | none => false
  else true

/-- get_credentials_for_service handler (lines 489-524). -/
def handleGetCredentials (svc : Services) (params : Dict) : Option ExecResult :=
  if !svc.hasCredMan then some ⟨false, some [("error", .str "CredMan missing.")], []⟩
  else if !svc.hasCallback then some ⟨false, some [("error", .str "Orch CB missing.")], []⟩
  else
    let sname := dGetD params "service_name" .null
    if !pyTruthy sname then
      some ⟨false, some [("error", .str "Missing \x27service_name\x27.")], []⟩
    else if !ensureCredsReady svc then
      some ⟨false, some [("error", .str ("Cred store for \x27" ++ pyStr sname ++
        "\x27 not ready."))], []⟩
    else
      match svc.getCredential sname with
      | some (u, p) =>
        some ⟨true, some [(pyStr sname ++ "_username", .str u),
          (pyStr sname ++ "_password", .str p),
          ("info", .str ("Creds for " ++ pyStr sname ++ " retrieved."))], []⟩
      | none =>
        match svc.cbServiceCredential sname (dGetD params "username_hint" (.str "")) with
        | some (s, u, p, save) =>
          if !s.isEmpty then
            let base : Dict := [(s ++ "_username", .str u), (s ++ "_password", .str p),
              ("info", .str ("Creds for " ++ s ++ " obtained."))]
            if save then
              if svc.addOrUpdateCredential s u p then some ⟨true, some base, []⟩
              else some ⟨true, some (dset base "warning" (.str "Failed to save.")), []⟩
            else some ⟨true, some base, []⟩
          else
            some ⟨false, some [("error", .str ("Credential input for " ++ pyStr sname ++
              " cancelled/failed."))], []⟩
        | none =>
          some ⟨false, some [("error", .str ("Credential input for " ++ pyStr sname ++
            " cancelled/failed."))], []⟩

/-- click_element_by_description handler, vision only (lines 525-559). -/
def handleVisionClick (svc : Services) (params ctx : Dict) (effT : JVal) : Option ExecResult :=
  let desc := dGetD params "element_description" .null
  let cinstr := dGetD params "context_instructions_for_vision" (.str "")
  if !pyTruthy desc then
    some ⟨false, some [("error", .str "Missing \x27element_description\x27.")], []⟩
  else if !svc.hasPerception then
    some ⟨false, some [("error", .str "PerceptionAgent unavailable.")], []⟩
  else if pyTruthy effT && !svc.activateWindow effT then
    some ⟨false, some [("error", .str ("Could not activate window \x27" ++ pyStr effT ++
      "\x27."))], [.evActivateWindow effT]⟩
  else
    let evs0 := if pyTruthy effT then [Event.evActivateWindow effT] else []
    match svc.visionLocate desc effT cinstr with
    | (ci, sb) =>
      let evs := evs0 ++ [.evVisionLocate desc]
      if visionHit ci then
        match ci with
        | some cd =>
          match dget cd "x_center", dget cd "y_center" with
          | some rx, some ry =>
            match mapCoords rx ry sb with
            | some (ax, ay) =>
              let evs := evs ++ [.evClickAt ax ay]
              if svc.clickAt ax ay then
                some ⟨true, some [("info", .str ("Clicked (vision) \x27" ++ pyStr desc ++
                  "\x27 at (" ++ pyStr ax ++ "," ++ pyStr ay ++ ")."))], evs⟩
              else
                some ⟨false, some [("error", .str ("Failed vision click at (" ++ pyStr ax ++
                  "," ++ pyStr ay ++ ") for \x27" ++ pyStr desc ++ "\x27."))], evs⟩
            | none => none
          | _, _ => none
        | none => none
      else
        some ⟨false, some [("error", .str ("Element (vision) \x27" ++ pyStr desc ++
          "\x27 not found: " ++ visionMissReason ci))], evs⟩

/-- type_text_into_element_by_description handler, vision only
(lines 562-645). -/
def handleVisionType (svc : Services) (params ctx : Dict) (effT : JVal) : Option ExecResult :=
  let txtT := dGetD params "text_to_type" .null
  let desc := dGetD params "element_description" .null
  let cinstr := dGetD params "context_instructions_for_vision" (.str "")
  if !pyTruthy txtT || !pyTruthy desc then
    some ⟨false, some [("error", .str "Missing text or element_desc.")], []⟩
  else if !svc.hasPerception then
    some ⟨false, some [("error", .str "PerceptionAgent unavailable.")], []⟩
  else
    let txt := resolve_context_variable ctx txtT
    if txt == JVal.null then
      some ⟨false, some [("error", .str ("Could not resolve: " ++ pyStr txtT))], []⟩
    else if pyTruthy effT && !svc.activateWindow effT then
      some ⟨false, some [("error", .str ("Could not activate \x27" ++ pyStr effT ++
        "\x27."))], [.evActivateWindow effT]⟩
    else
      let evs0 := if pyTruthy effT then [Event.evActivateWindow effT] else []
      match svc.visionLocate desc effT cinstr with
      | (ci, sb) =>
        let evs := evs0 ++ [.evVisionLocate desc]
        if visionHit ci then
          match ci with
          | some cd =>
            match dget cd "x_center", dget cd "y_center" with
            | some rx, some ry =>
              match mapCoords rx ry sb with
              | some (ax, ay) =>
                let evs := evs ++ [.evClickAt ax ay]
                if svc.clickAt ax ay then
                  let evs := evs ++ [.evSleep, .evTypeText]
                  if svc.typeText txt .null then
                    some ⟨true, some [("info", .str ("Typed (vision) into \x27" ++
                      pyStr desc ++ "\x27."))], evs⟩
                  else
                    some ⟨false, some [("error", .str ("Failed type after vision click \x27" ++
                      pyStr desc ++ "\x27."))], evs⟩
                else
                  some ⟨false, some [("error", .str ("Failed vision click \x27" ++
                    pyStr desc ++ "\x27 before typing."))], evs⟩
              | none => none
            | _, _ => none
          | none => none
        else
          some ⟨false, some [("error", .str ("Element (vision) \x27" ++ pyStr desc ++
            "\x27 for typing not found: " ++ visionMissReason ci))], evs⟩

/-- type_text handler (lines 649-659). -/
def handleTypeText (svc : Services) (params ctx : Dict) (effT : JVal) : Option ExecResult :=
  let tmpl := dGetD params "text" .null
  let txt := resolve_context_variable ctx tmpl
  if !(txt == JVal.null) then
    if svc.typeText txt effT then some ⟨true, none, [.evTypeText]⟩
    else
      some ⟨false, some [("error", .str ("Failed general type in \x27" ++
        pyStr (pyOr effT (.str "active")) ++ "\x27"))], [.evTypeText]⟩
  else
    some ⟨false, some [("error", .str "Missing text/var for general type_text")], []⟩

/-- open_application handler (lines 660-675). -/
def handleOpenApplication (svc : Services) (params : Dict) : Option ExecResult :=
  let app := dGetD params "application_name" .null
  let actIf := dGetD params "activate_if_running" (.bool true)
  let useSmP := dGetD params "use_start_menu_on_windows" .null
  let useSm : JVal := if useSmP == JVal.null then .bool (svc.currentOS == "windows") else useSmP
  if pyTruthy app then
    match svc.openApplication app actIf useSm with
    | (ok, winTitle) =>
      match winTitle with
      | some t =>
        if !t.isEmpty then
          some ⟨ok, some [("last_opened_window_title", .str t),
            ("last_opened_app_name", app)], [.evOpenApplication]⟩
        else if !ok then
          some ⟨false, some [("error", .str ("Failed to open/manage " ++ pyStr app))],
            [.evOpenApplication]⟩
        else some ⟨ok, none, [.evOpenApplication]⟩
      | none =>
        if !ok then
          some ⟨false, some [("error", .str ("Failed to open/manage " ++ pyStr app))],
            [.evOpenApplication]⟩
        else some ⟨ok, none, [.evOpenApplication]⟩
  else
    some ⟨false, some [("error", .str "Missing application_name")], []⟩

/-- activate_window handler (lines 676-684). -/
def handleActivateWindow (svc : Services) (params ctx : Dict) (effT : JVal) : Option ExecResult :=
  let hintP := dGetD params "window_title_hint" .null
  let titleAct := if pyTruthy hintP then resolve_context_variable ctx hintP else effT
  if pyTruthy titleAct then
    if svc.activateWindow titleAct then some ⟨true, none, [.evActivateWindow titleAct]⟩
    else
      some ⟨false, some [("error", .str ("Failed activate " ++ pyStr titleAct))],
        [.evActivateWindow titleAct]⟩
  else
    some ⟨false, some [("error", .str "Missing window_title_hint")], []⟩

/-- close_application handler (lines 685-694). -/
def handleCloseApplication (svc : Services) (params ctx : Dict) (effT : JVal) : Option ExecResult :=
  let pt := pyOr (dGetD params "application_name" .null) (dGetD params "window_title_hint" .null)
  let titleC := if pyTruthy pt then resolve_context_variable ctx pt else effT
  if pyTruthy titleC then
    if svc.closeApplicationWindow titleC then
      some ⟨true, some [("last_opened_window_title", .null), ("last_opened_app_name", .null)],
        [.evCloseApplication]⟩
    else
      some ⟨false, some [("error", .str ("Failed close " ++ pyStr titleC))],
        [.evCloseApplication]⟩
  else
    some ⟨false, some [("error", .str "No target for close_application")], []⟩

/-- search_web handler (lines 695-701). -/
def handleSearchWeb (svc : Services) (params : Dict) : Option ExecResult :=
  let q := dGetD params "search_query" .null
  if pyTruthy q then
    if svc.searchWeb q then some ⟨true, none, [.evSearchWeb]⟩
    else some ⟨false, some [("error", .str "Failed web search")], [.evSearchWeb]⟩
  else
    some ⟨false, some [("error", .str "Missing search_query")], []⟩

/-- press_key handler (lines 702-711). -/
def handlePressKey (svc : Services) (params ctx : Dict) (effT : JVal) : Option ExecResult :=
  let kp := dGetD params "key_name" .null
  let key : JVal := match kp with
    | .str s => if strContainsB s "\x7b\x7b" then resolve_context_variable ctx (.str s) else .str s
    | v => v
  if pyTruthy key then
    if svc.pressKey key effT then some ⟨true, none, [.evPressKey key]⟩
    else
      some ⟨false, some [("error", .str ("Failed press key in \x27" ++
        pyStr (pyOr effT (.str "active")) ++ "\x27"))], [.evPressKey key]⟩
  else
    some ⟨false, some [("error", .str "Missing key_name or failed to resolve for press_key")], []⟩

/-- clear_text_in_window handler (lines 712-728). -/
def handleClearText (svc : Services) (effT : JVal) : Option ExecResult :=
  if pyTruthy effT then
    if svc.activateWindow effT then
      let keyCombo : JVal := .list [.str "ctrl", .str "a"]
      if svc.pressKey keyCombo .null then
        if svc.pressKey (.str "delete") .null then
          some ⟨true, none, [.evActivateWindow effT, .evSleep, .evPressKey keyCombo,
            .evSleep, .evPressKey (.str "delete")]⟩
        else
          some ⟨false, some [("error", .str "Failed delete after select all")],
            [.evActivateWindow effT, .evSleep, .evPressKey keyCombo, .evSleep,
             .evPressKey (.str "delete")]⟩
      else
        some ⟨false, some [("error", .str "Failed select all (Ctrl+A)")],
          [.evActivateWindow effT, .evSleep, .evPressKey keyCombo]⟩
    else
      some ⟨false, some [("error", .str ("Failed activate window \x27" ++ pyStr effT ++
        "\x27 for clearing"))], [.evActivateWindow effT]⟩
  else
    some ⟨false, some [("error", .str "No target window specified for clear_text")], []⟩

/-- get_info_from_screen handler (lines 729-748). -/
def handleGetInfo (svc : Services) (params ctx : Dict) (effT : JVal) : Option ExecResult :=
  if !svc.hasPerception then
    some ⟨false, some [("error", .str "PerceptionAgent unavailable")], []⟩
  else
    let q := dGetD params "query_details" .null
    let store := dGetD params "store_result_as" .null
    let tw := dGetD params "target_window_title" .null
    let finalT := if pyTruthy tw then resolve_context_variable ctx tw else effT
    let storeKey := if pyTruthy store then pyStr store else "last_perception_data"
    if pyTruthy q then
      let p := svc.analyzeScreen q finalT
      if pyTruthy (dGetD p "found" .null) then
        some ⟨true, some [(storeKey, dGetD p "data" .null)], [.evAnalyzeScreen]⟩
      else
        some ⟨false, some [(storeKey, .null),
          ("error", dGetD p "reason" (.str "Info not found"))], [.evAnalyzeScreen]⟩
    else
      some ⟨false, some [("error", .str "Missing query_details for get_info_from_screen")], []⟩

/-- log_message handler (lines 749-755): logging only, always succeeds
with no result data. -/
def handleLogMessage (params ctx : Dict) : Option ExecResult :=
  let _ := resolve_context_variable ctx (dGetD params "message" (.str "No msg"))
  some ⟨true, none, []⟩

def osExempt : List String :=
  ["log_message", "get_info_from_screen", "get_credentials_for_service", "wait",
   "generate_text_content"]

def visionActions : List String :=
  ["click_element_by_description", "type_text_into_element_by_description"]

def accActions : List String :=
  ["click_element_by_accessibility", "type_text_into_element_by_accessibility",
   "get_element_text_by_accessibility"]

/-- get_effective_target_title (lines 64-67). -/
def get_effective_target_title (params ctx : Dict) : JVal :=
  let p := dGetD params "target_window_title" .null
  if pyTruthy p then resolve_context_variable ctx p
  else dGetD ctx "last_opened_window_title" .null

def dispatchAction (svc : Services) (atype : String) (params ctx : Dict) (effT : JVal) :
    Option ExecResult :=
  match atype with
  | "click_element_by_accessibility" => handleAccClick svc params ctx effT
  | "type_text_into_element_by_accessibility" => handleAccType svc params ctx effT
  | "get_element_text_by_accessibility" => handleAccGetText svc params ctx effT
  | "generate_text_content" => handleGenerate svc params ctx
  | "wait" => handleWait params ctx
  | "get_credentials_for_service" => handleGetCredentials svc params
  | "click_element_by_description" => handleVisionClick svc params ctx effT
  | "type_text_into_element_by_description" => handleVisionType svc params ctx effT
  | "type_text" => handleTypeText svc params ctx effT
  | "open_application" => handleOpenApplication svc params
  | "activate_window" => handleActivateWindow svc params ctx effT
  | "close_application" => handleCloseApplication svc params ctx effT
  | "search_web" => handleSearchWeb svc params
  | "press_key" => handlePressKey svc params ctx effT
  | "clear_text_in_window" => handleClearText svc effT
  | "get_info_from_screen" => handleGetInfo svc params ctx effT
  | "log_message" => handleLogMessage params ctx
  | "navigate_url" => some ⟨false, some [("info", .str "Web nav not implemented.")], []⟩
  | "send_message_whatsapp" =>
    some ⟨false, some [("info", .str
      "High-level WhatsApp send; use \x27find_contact_and_send_message\x27 intent for detailed planning.")], []⟩
  | _ => some ⟨false, some [("error", .str ("Unknown or unimplemented action type: " ++ atype))], []⟩

/-- Post-processing of lines 770-779: on failure a missing error key is
filled in with a default message, and a None result dict is replaced by
a fresh dict. -/
def ensureError (atype : String) (d : Option Dict) : Dict :=
  let d0 := d.getD []
  if hasKey d0 "error" then d0
  else dset d0 "error" (.str ("Action \x27" ++ atype ++ "\x27 failed."))

def postProcess (atype : String) (r : ExecResult) : ExecResult :=
  if r.success then r else ⟨false, some (ensureError atype r.data), r.events⟩

/-- ActionAgent.execute_action (lines 99-779): service pre-checks with
early returns, dispatch on the action type, post-processing of the
failure result. -/
def execute_action (svc : Services) (step : ActionStep) (ctx : Dict) : Option ExecResult :=
  let atype := step.action_type
  let params := step.parameters
  let effT := get_effective_target_title params ctx
  if !svc.hasOS && !(osExempt.contains atype) then
    some ⟨false, some [("error", .str "OSInteractionService unavailable")], []⟩
  else if !svc.hasPerception && visionActions.contains atype then
    some ⟨false, some [("error", .str ("PerceptionAgent (for vision) required for " ++ atype))], []⟩
  else if !svc.hasAccessibility && accActions.contains atype then
    some ⟨false, some [("error", .str ("AccessibilityService required for " ++ atype))], []⟩
  else if !svc.hasGemini && atype == "generate_text_content" then
    some ⟨false, some [("error", .str "GeminiService required for generate_text_content")], []⟩
  else
    (dispatchAction svc atype params ctx effT).map (postProcess atype)

/- ===================== Plan Runner =====================
Model of MainOrchestrator execute next plan step and finish plan
execution (src/aura_core/main_orchestrator.py lines 196-229): merge the
step result into context with null-clearing, advance on success, halt on
failure reporting the 1-based failing step number. -/

/-- The context merge of lines 204-209: keys whose result value is None
and which exist in the context are deleted from both, then the remaining
result entries update the context. -/
def mergeStepData (ctx d : Dict) : Dict :=
  let keysToClear := (d.filter (fun kv => kv.2 == JVal.null && hasKey ctx kv.1)).map
    (fun kv => kv.1)
  let ctx2 := keysToClear.foldl derase ctx
  let d2 := keysToClear.foldl derase d
  dictUpdate ctx2 d2

/-- result_data and isinstance(result_data, dict): merge only a non-empty
dict result. -/
def stepMerge (ctx : Dict) (r : ExecResult) : Dict :=
  match r.data with
  | some d => if !d.isEmpty then mergeStepData ctx d else ctx
  | none => ctx

structure RunOutcome where
  completed : Bool
  haltedAt : Option Nat
  context : Dict
  deriving Repr, DecidableEq

def run_plan_steps (svc : Services) : List ActionStep → Nat → Dict → Option RunOutcome
  | [], _, ctx => some ⟨true, none, ctx⟩
  | step :: rest, i, ctx =>
    match execute_action svc step ctx with
    | none => none
    | some r =>
      let ctx2 := stepMerge ctx r
      if r.success then run_plan_steps svc rest (i + 1) ctx2
      else some ⟨false, some (i + 1), ctx2⟩

def run_plan (svc : Services) (plan : List ActionStep) (ctx : Dict) : Option RunOutcome :=
  run_plan_steps svc plan 0 ctx

/- ===================== Dict lemmas ===================== -/

theorem dget_cons (kv : String × JVal) (d : Dict) (k : String) :
    dget (kv :: d) k = if kv.1 = k then some kv.2 else dget d k := by
  by_cases h : kv.1 = k
  · rw [dget, List.find?_cons_of_pos _ (by simp [h])]
    simp [h]
  · rw [dget, List.find?_cons_of_neg _ (by simp [h])]
    simp [h, dget]

theorem dget_dset_self (d : Dict) (k : String) (v : JVal) :
    dget (dset d k v) k = some v := by
  induction d with
  | nil => simp [dset, dget_cons]
  | cons kv rest ih =>
    by_cases h : kv.1 = k
    · simp only [dset, beq_iff_eq, h, if_true]
      simp [dget_cons]
    · simp only [dset, beq_iff_eq, h, if_false]
      rw [dget_cons]
      simp [h, ih]

theorem dget_dset_ne (d : Dict) (k k' : String) (v : JVal) (h : k' ≠ k) :
    dget (dset d k v) k' = dget d k' := by
  have h2 : ¬ (k = k') := fun hc => h hc.symm
  induction d with
  | nil =>
    show dget [(k, v)] k' = dget [] k'
    rw [dget_cons]
    simp [h2, dget]
  | cons kv rest ih =>
    by_cases hk : kv.1 = k
    · simp only [dset, beq_iff_eq, hk, if_true]
      rw [dget_cons, dget_cons]
      simp [h2, hk]
    · simp only [dset, beq_iff_eq, hk, if_false]
      rw [dget_cons, dget_cons, ih]

theorem hasKey_dset_self (d : Dict) (k : String) (v : JVal) :
    hasKey (dset d k v) k = true := by
  simp [hasKey, dget_dset_self]

theorem derase_cons (kv : String × JVal) (d : Dict) (k : String) :
    derase (kv :: d) k = if kv.1 = k then derase d k else kv :: derase d k := by
  by_cases h : kv.1 = k
  · simp only [derase, List.filter_cons, bne_iff_ne, h, if_true]
    simp
  · simp only [derase, List.filter_cons]
    have hb : (kv.1 != k) = true := by simp [h]
    simp [hb, h]

theorem dget_derase_self (d : Dict) (k : String) : dget (derase d k) k = none := by
  induction d with
  | nil => rfl
  | cons kv rest ih =>
    rw [derase_cons]
    by_cases h : kv.1 = k
    · simp [h, ih]
    · simp only [h, if_false]
      rw [dget_cons]
      simp [h, ih]

theorem dget_derase_ne (d : Dict) (k k' : String) (h : k' ≠ k) :
    dget (derase d k) k' = dget d k' := by
  induction d with
  | nil => rfl
  | cons kv rest ih =>
    rw [derase_cons]
    by_cases hk : kv.1 = k
    · rw [dget_cons]
      have h2 : ¬ (k = k') := fun hc => h hc.symm
      simp [hk, h2, ih]
    · simp only [hk, if_false]
      rw [dget_cons, dget_cons, ih]

theorem dget_foldl_derase_not_mem (ks : List String) :
    ∀ (d : Dict) (k : String), k ∉ ks → dget (ks.foldl derase d) k = dget d k := by
  induction ks with
  | nil => intro d k _; rfl
  | cons k0 ks' ih =>
    intro d k h
    simp only [List.foldl_cons]
    have hne : k ≠ k0 := fun hc => h (by rw [hc]; exact List.mem_cons_self k0 ks')
    rw [ih (derase d k0) k (fun hc => h (List.mem_cons_of_mem k0 hc)),
      dget_derase_ne d k0 k hne]

theorem dget_foldl_derase_mem (ks : List String) :
    ∀ (d : Dict) (k : String), k ∈ ks → dget (ks.foldl derase d) k = none := by
  induction ks with
  | nil => intro d k h; simp at h
  | cons k0 ks' ih =>
    intro d k h
    simp only [List.foldl_cons]
    by_cases hm : k ∈ ks'
    · exact ih (derase d k0) k hm
    · have hk0 : k = k0 := by
        rcases List.mem_cons.mp h with h1 | h1
        · exact h1
        · exact absurd h1 hm
      rw [dget_foldl_derase_not_mem ks' (derase d k0) k hm, hk0, dget_derase_self]

theorem dget_eq_none_of_not_mem_keys (d : Dict) (k : String)
    (h : k ∉ d.map Prod.fst) : dget d k = none := by
  induction d with
  | nil => rfl
  | cons kv rest ih =>
    rw [dget_cons]
    have h1 : ¬ (kv.1 = k) := fun hc => h (by simp [hc])
    simp only [h1, if_false]
    exact ih (fun hc => h (by simp [hc]))

theorem dictUpdate_get_of_dget_none (r : Dict) :
    ∀ (c : Dict) (k : String), dget r k = none → dget (dictUpdate c r) k = dget c k := by
  induction r with
  | nil => intro c k _; rfl
  | cons kv r' ih =>
    intro c k h
    rw [dget_cons] at h
    by_cases hk : kv.1 = k
    · simp [hk] at h
    · simp only [hk, if_false] at h
      simp only [dictUpdate, List.foldl_cons]
      have := ih (dset c kv.1 kv.2) k h
      simp only [dictUpdate] at this
      rw [this, dget_dset_ne c kv.1 k kv.2 (fun hc => hk hc.symm)]

theorem dictUpdate_get_of_mem (r : Dict) :
    ∀ (c : Dict) (k : String) (v : JVal), (r.map Prod.fst).Nodup →
      dget r k = some v → dget (dictUpdate c r) k = some v := by
  induction r with
  | nil => intro c k v _ h; simp [dget, List.find?] at h
  | cons kv r' ih =>
    intro c k v hnd h
    rw [dget_cons] at h
    simp only [List.map_cons, List.nodup_cons] at hnd
    obtain ⟨hk0, hnd'⟩ := hnd
    simp only [dictUpdate, List.foldl_cons]
    by_cases hk : kv.1 = k
    · simp only [hk, if_true, Option.some.injEq] at h
      subst h
      have hr' : dget r' k = none := by
        apply dget_eq_none_of_not_mem_keys
        rw [← hk]
        exact hk0
      have := dictUpdate_get_of_dget_none r' (dset c kv.1 kv.2) k hr'
      simp only [dictUpdate] at this
      rw [this, hk, dget_dset_self]
    · simp only [hk, if_false] at h
      have := ih (dset c kv.1 kv.2) k v hnd' h
      simp only [dictUpdate] at this
      exact this

theorem nodup_keys_derase (d : Dict) (k : String)
    (h : (d.map Prod.fst).Nodup) : ((derase d k).map Prod.fst).Nodup := by
  have hsub : (derase d k).Sublist d := List.filter_sublist d
  exact ((hsub.map Prod.fst).nodup) h

theorem nodup_keys_foldl_derase (ks : List String) :
    ∀ (d : Dict), (d.map Prod.fst).Nodup → ((ks.foldl derase d).map Prod.fst).Nodup := by
  induction ks with
  | nil => intro d h; exact h
  | cons k0 ks' ih =>
    intro d h
    simp only [List.foldl_cons]
    exact ih (derase d k0) (nodup_keys_derase d k0 h)

/-- A quick sanity mock of the collaborators, mirroring the standalone
test mocks at the bottom of action_agent.py. -/
def mockSvc : Services where
  hasOS := true
  hasPerception := true
  hasCredMan := true
  hasGemini := true
  hasAccessibility := true
  hasCallback := true
  currentOS := "windows"
  getWindow := fun t => some (pyStr t)
  findElement := fun _ n _ a _ _ => some (pyStr (pyOr n a))
  clickElement := fun _ => true
  setElementText := fun _ _ => true
  getElementProps := fun e => some [("name", .str e)]
  activateWindow := fun _ => true
  clickAt := fun _ _ => true
  typeText := fun _ _ => true
  pressKey := fun _ _ => true
  openApplication := fun _ _ _ => (true, some "Untitled - Notepad")
  closeApplicationWindow := fun _ => true
  searchWeb := fun _ => true
  visionLocate := fun _ _ _ =>
    (some [("found", .bool true), ("x_center", .num 30), ("y_center", .num 15),
      ("x_top_left", .num 5), ("y_top_left", .num 0), ("width", .num 50),
      ("height", .num 30), ("confidence", .num 1)], some (100, 100, 800, 600))
  analyzeScreen := fun _ _ => [("found", .bool false), ("reason", .str "Mock info not found")]
  generateText := fun _ => some "Mock generated text."
  credIsInitialized := true
  credIsUnlocked := true
  setupMasterPassword := fun _ => true
  unlockStore := fun _ => true
  getCredential := fun _ => none
  addOrUpdateCredential := fun _ _ _ => true
  cbMasterPassword := fun _ => some "mock_master"
  cbServiceCredential := fun s _ => some (pyStr s, "mock_user", "mock_pass", true)

example :
    (execute_action mockSvc
      ⟨"click_element_by_accessibility",
        [("target_window_title", .str "Calculator"), ("element_name", .str "Seven"),
         ("control_type", .str "Button")]⟩ []).map (fun r => r.success) = some true := by
  decide

example :
    (execute_action mockSvc ⟨"search_web", []⟩ []).map (fun r => r.data) =
      some (some [("error", .str "Missing search_query")]) := by
  decide

/- ===================== Claims ===================== -/

theorem hasKey_ensureError (a : String) (d : Option Dict) :
    hasKey (ensureError a d) "error" = true := by
  unfold ensureError
  by_cases h : hasKey (d.getD []) "error" = true
  · simp [h]
  · simp only [Bool.not_eq_true] at h
    simp [h, hasKey_dset_self]

/-- C5: for every action step and context, whenever execute_action
returns success=false, the result data is a non-null dict containing an
error key; the post-processing of lines 770-779 synthesizes a default
message when no handler branch set one, and every early-return branch
sets one explicitly. -/
theorem claim5_error_key_on_failure :
    ∀ (svc : Services) (step : ActionStep) (ctx : Dict) (r : ExecResult),
      execute_action svc step ctx = some r → r.success = false →
      ∃ d, r.data = some d ∧ hasKey d "error" = true := by
  intro svc step ctx r hexec hfail
  unfold execute_action at hexec
  dsimp only at hexec
  split_ifs at hexec with h1 h2 h3 h4
  · injection hexec with h; subst h; exact ⟨_, rfl, rfl⟩
  · injection hexec with h; subst h; exact ⟨_, rfl, rfl⟩
  · injection hexec with h; subst h; exact ⟨_, rfl, rfl⟩
  · injection hexec with h; subst h; exact ⟨_, rfl, rfl⟩
  · rw [Option.map_eq_some'] at hexec
    obtain ⟨r0, hd, hpp⟩ := hexec
    subst hpp
    unfold postProcess at hfail ⊢
    by_cases hs : r0.success = true
    · rw [if_pos hs] at hfail
      rw [hfail] at hs
      exact absurd hs (by simp)
    · simp only [Bool.not_eq_true] at hs
      rw [hs] at hfail ⊢
      simp only [Bool.false_eq_true, if_false]
      exact ⟨_, rfl, hasKey_ensureError _ _⟩

theorem claim5_witness :
    ∃ d, (ExecResult.mk false (some [("error", JVal.str "Missing search_query")]) []).data =
      some d ∧ hasKey d "error" = true :=
  claim5_error_key_on_failure mockSvc ⟨"search_web", []⟩ []
    ⟨false, some [("error", JVal.str "Missing search_query")], []⟩ (by decide) rfl

/-- C8: vision-relative coordinates map to absolute coordinates:
unchanged for a missing bounds tuple or the full-screen sentinel width
-1, shifted by (left, top) for concrete bounds. -/
theorem claim8_coordinate_mapping :
    ∀ (rx ry l t w h : Int),
      mapCoords (.num rx) (.num ry) none = some (.num rx, .num ry) ∧
      mapCoords (.num rx) (.num ry) (some (l, t, -1, h)) = some (.num rx, .num ry) ∧
      (w ≠ -1 → mapCoords (.num rx) (.num ry) (some (l, t, w, h)) =
        some (.num (l + rx), .num (t + ry))) := by
  intro rx ry l t w h
  refine ⟨rfl, ?_, ?_⟩
  · simp [mapCoords]
  · intro hw
    simp [mapCoords, hw, jAdd]

theorem claim8_witness :
    mapCoords (.num 30) (.num 15) (some (100, 100, 800, 600)) =
      some (.num 130, .num 115) := by
  have h := (claim8_coordinate_mapping 30 15 100 100 800 600).2.2 (by decide)
  simpa using h

/-- C3 counterexample: a completed close_application step returns
last_opened_window_title mapped to null; merging it into a context that
does not already hold that key leaves the key PRESENT with value null,
contradicting the claim that the key is absent from context after the
merge. -/
theorem claim3_counterexample :
    (run_plan mockSvc [⟨"close_application", [("application_name", .str "Notepad")]⟩]
      []).map (fun o => (o.completed, dget o.context "last_opened_window_title")) =
      some (true, some JVal.null) := by
  decide

/-- C3 amended: after the plan runner merge, a key mapped to null in the
step result is deleted when it previously existed in the context, and is
inserted with value null when it did not previously exist. -/
theorem claim3_null_clearing_amended :
    ∀ (ctx d : Dict) (k : String), (d.map Prod.fst).Nodup →
      dget d k = some JVal.null →
      (hasKey ctx k = true → dget (mergeStepData ctx d) k = none) ∧
      (hasKey ctx k = false → dget (mergeStepData ctx d) k = some JVal.null) := by
  intro ctx d k hnd h
  simp only [mergeStepData]
  constructor
  · intro hk
    have hfind : ∃ pr, d.find? (fun kv => kv.1 == k) = some pr ∧ pr.2 = JVal.null := by
      unfold dget at h
      rw [Option.map_eq_some'] at h
      obtain ⟨pr, hp, hv⟩ := h
      exact ⟨pr, hp, hv⟩
    obtain ⟨pr, hfind, hv⟩ := hfind
    have hp1 : pr.1 = k := by
      have := List.find?_some hfind
      simpa using this
    have hmem : pr ∈ d := List.mem_of_find?_eq_some hfind
    have hkmem : k ∈ (d.filter (fun kv => kv.2 == JVal.null && hasKey ctx kv.1)).map
        Prod.fst := by
      have hpred : (fun kv => kv.2 == JVal.null && hasKey ctx kv.1) pr = true := by
        simp only [Bool.and_eq_true, beq_iff_eq]
        exact ⟨hv, by rw [hp1]; exact hk⟩
      have : pr ∈ d.filter (fun kv => kv.2 == JVal.null && hasKey ctx kv.1) :=
        List.mem_filter.mpr ⟨hmem, hpred⟩
      rw [← hp1]
      exact List.mem_map_of_mem Prod.fst this
    rw [dictUpdate_get_of_dget_none _ _ _ (dget_foldl_derase_mem _ d k hkmem)]
    exact dget_foldl_derase_mem _ ctx k hkmem
  · intro hk
    have hknot : k ∉ (d.filter (fun kv => kv.2 == JVal.null && hasKey ctx kv.1)).map
        Prod.fst := by
      intro hc
      obtain ⟨kv, hkv, hfst⟩ := List.mem_map.mp hc
      have hpred := (List.mem_filter.mp hkv).2
      simp only [Bool.and_eq_true, beq_iff_eq] at hpred
      rw [hfst] at hpred
      rw [hpred.2] at hk
      exact absurd hk (by simp)
    have hd2 : dget ((d.filter (fun kv => kv.2 == JVal.null && hasKey ctx kv.1)).map
        Prod.fst |>.foldl derase d) k = some JVal.null := by
      rw [dget_foldl_derase_not_mem _ d k hknot]
      exact h
    have hnd2 := nodup_keys_foldl_derase
      ((d.filter (fun kv => kv.2 == JVal.null && hasKey ctx kv.1)).map Prod.fst) d hnd
    exact dictUpdate_get_of_mem _ _ _ _ hnd2 hd2

theorem claim3_witness :
    dget (mergeStepData [("foo", JVal.str "1")] [("foo", JVal.null)]) "foo" = none :=
  (claim3_null_clearing_amended [("foo", JVal.str "1")] [("foo", JVal.null)] "foo"
    (by decide) (by decide)).1 (by decide)

/-- C2 counterexample: 3-step plan whose second step fails; the runner
halts at step 2 but the failing step result IS merged into the context
(the merge at lines 204-209 runs before the success check), so the final
context holds the step-2 error alongside the step-1 merges, contradicting
that context contains only the merges from step 1. -/
theorem claim2_counterexample :
    (run_plan mockSvc
      [⟨"open_application", [("application_name", .str "Notepad")]⟩,
       ⟨"search_web", []⟩,
       ⟨"log_message", []⟩] []).map
      (fun o => (o.completed, o.haltedAt, dget o.context "error",
        dget o.context "last_opened_app_name")) =
      some (false, some 2, some (.str "Missing search_query"), some (.str "Notepad")) := by
  decide

/-- C2 amended: for every 3-step plan whose second step dispatch fails,
the runner ends halted reporting step 2 and never dispatches step 3; the
context holds the merges of step 1 AND the merged result data of the
failing step 2. -/
theorem claim2_plan_halt_amended :
    ∀ (svc : Services) (s1 s2 s3 : ActionStep) (ctx0 : Dict) (r1 r2 : ExecResult),
      execute_action svc s1 ctx0 = some r1 → r1.success = true →
      execute_action svc s2 (stepMerge ctx0 r1) = some r2 → r2.success = false →
      run_plan svc [s1, s2, s3] ctx0 =
        some ⟨false, some 2, stepMerge (stepMerge ctx0 r1) r2⟩ := by
  intro svc s1 s2 s3 ctx0 r1 r2 h1 hs1 h2 hs2
  unfold run_plan
  unfold run_plan_steps
  rw [h1]
  simp only [hs1, if_true]
  unfold run_plan_steps
  rw [h2]
  simp only [hs2, Bool.false_eq_true, if_false]

theorem claim2_witness :
    run_plan mockSvc
      [⟨"open_application", [("application_name", .str "Notepad")]⟩,
       ⟨"search_web", []⟩,
       ⟨"log_message", []⟩] [] =
      some ⟨false, some 2,
        stepMerge (stepMerge []
          ⟨true, some [("last_opened_window_title", .str "Untitled - Notepad"),
            ("last_opened_app_name", .str "Notepad")], [.evOpenApplication]⟩)
          ⟨false, some [("error", .str "Missing search_query")], []⟩⟩ :=
  claim2_plan_halt_amended mockSvc
    ⟨"open_application", [("application_name", .str "Notepad")]⟩
    ⟨"search_web", []⟩ ⟨"log_message", []⟩ []
    ⟨true, some [("last_opened_window_title", .str "Untitled - Notepad"),
      ("last_opened_app_name", .str "Notepad")], [.evOpenApplication]⟩
    ⟨false, some [("error", .str "Missing search_query")], []⟩
    (by decide) rfl (by decide) rfl

/-- C6 counterexample: a reference written with inner whitespace to an
absent variable is NOT left textually unchanged: the match consumes the
whitespace and the replacement is the normalized literal without it. -/
theorem claim6_counterexample :
    resolve_context_variable [] (.str "\x7b\x7b foo \x7d\x7d") =
      .str "\x7b\x7bfoo\x7d\x7d" ∧
    JVal.str "\x7b\x7bfoo\x7d\x7d" ≠ JVal.str "\x7b\x7b foo \x7d\x7d" := by
  refine ⟨by decide, by decide⟩

/-- C6 amended: a double-brace reference to a variable absent from the
context is replaced by its normalized literal form (the reference with
inner whitespace dropped), never by an empty string or a context value;
a reference written without inner whitespace is reproduced unchanged. -/
theorem claim6_absent_reference_amended :
    ∀ (ctx : Dict) (pre ws1 name ws2 post : String),
      (∀ c ∈ pre.toList, c ≠ '\x7b') → (∀ c ∈ post.toList, c ≠ '\x7b') →
      (∀ c ∈ ws1.toList, isSpaceChar c = true) → (∀ c ∈ ws2.toList, isSpaceChar c = true) →
      name.toList ≠ [] → (∀ c ∈ name.toList, isWordChar c = true) →
      dget ctx name = none →
      resolveStr ctx (pre ++ "\x7b\x7b" ++ ws1 ++ name ++ ws2 ++ "\x7d\x7d" ++ post) =
        pre ++ "\x7b\x7b" ++ name ++ "\x7d\x7d" ++ post := by
  intro ctx pre ws1 name ws2 post hpre hpost hws1 hws2 hnm hword habs
  have hrepl : refReplacement ctx (String.mk name.toList) = "\x7b\x7b" ++ name ++ "\x7d\x7d" := by
    unfold refReplacement dGetD
    have hmk : String.mk name.toList = name := rfl
    rw [hmk, habs]
    rfl
  have hTdata : (pre ++ "\x7b\x7b" ++ ws1 ++ name ++ ws2 ++ "\x7d\x7d" ++ post).toList =
      pre.toList ++ '\x7b' :: '\x7b' ::
        (ws1.toList ++ name.toList ++ ws2.toList ++ '\x7d' :: '\x7d' :: post.toList) := by
    show (pre ++ "\x7b\x7b" ++ ws1 ++ name ++ ws2 ++ "\x7d\x7d" ++ post).data =
      pre.data ++ '\x7b' :: '\x7b' ::
        (ws1.data ++ name.data ++ ws2.data ++ '\x7d' :: '\x7d' :: post.data)
    simp only [String.data_append]
    simp [List.append_assoc]
  have hT2data : (pre ++ "\x7b\x7b" ++ name ++ "\x7d\x7d" ++ post).toList =
      pre.toList ++ '\x7b' :: '\x7b' ::
        (name.toList ++ '\x7d' :: '\x7d' :: post.toList) := by
    show (pre ++ "\x7b\x7b" ++ name ++ "\x7d\x7d" ++ post).data =
      pre.data ++ '\x7b' :: '\x7b' :: (name.data ++ '\x7d' :: '\x7d' :: post.data)
    simp only [String.data_append]
    simp [List.append_assoc]
  have hmr := matchRef_ref ws1.toList name.toList ws2.toList post.toList
    hws1 hnm hword hws2
  have hsub1 : substOnce ctx (pre ++ "\x7b\x7b" ++ ws1 ++ name ++ ws2 ++ "\x7d\x7d" ++ post) =
      pre ++ "\x7b\x7b" ++ name ++ "\x7d\x7d" ++ post := by
    unfold substOnce
    rw [hTdata, substPass_append_nobrace ctx _ hpre, substPass_match ctx hmr,
      substPass_nobrace ctx hpost, hrepl]
    rw [show ("\x7b\x7b" ++ name ++ "\x7d\x7d").toList =
      '\x7b' :: '\x7b' :: (name.toList ++ ['\x7d', '\x7d']) by
        show ("\x7b\x7b" ++ name ++ "\x7d\x7d").data =
          '\x7b' :: '\x7b' :: (name.data ++ ['\x7d', '\x7d'])
        simp only [String.data_append]
        rfl]
    show String.mk _ = _
    conv_rhs => rw [show (pre ++ "\x7b\x7b" ++ name ++ "\x7d\x7d" ++ post) =
      String.mk ((pre ++ "\x7b\x7b" ++ name ++ "\x7d\x7d" ++ post).data) from rfl]
    congr 1
    rw [show (pre ++ "\x7b\x7b" ++ name ++ "\x7d\x7d" ++ post).data =
      pre.toList ++ '\x7b' :: '\x7b' :: (name.toList ++ '\x7d' :: '\x7d' :: post.toList)
      from hT2data]
    simp [List.append_assoc]
  have hmr2 := matchRef_ref ([] : List Char) name.toList ([] : List Char) post.toList
    (by intro c hc; simp at hc) hnm hword (by intro c hc; simp at hc)
  have hsub2 : substOnce ctx (pre ++ "\x7b\x7b" ++ name ++ "\x7d\x7d" ++ post) =
      pre ++ "\x7b\x7b" ++ name ++ "\x7d\x7d" ++ post := by
    unfold substOnce
    have hmr2' : matchRef ('\x7b' :: '\x7b' ::
        (name.toList ++ '\x7d' :: '\x7d' :: post.toList)) =
        some (String.mk name.toList, post.toList) := by
      have := hmr2
      simpa using this
    rw [hT2data, substPass_append_nobrace ctx _ hpre, substPass_match ctx hmr2',
      substPass_nobrace ctx hpost, hrepl]
    rw [show ("\x7b\x7b" ++ name ++ "\x7d\x7d").toList =
      '\x7b' :: '\x7b' :: (name.toList ++ ['\x7d', '\x7d']) by
        show ("\x7b\x7b" ++ name ++ "\x7d\x7d").data =
          '\x7b' :: '\x7b' :: (name.data ++ ['\x7d', '\x7d'])
        simp only [String.data_append]
        rfl]
    show String.mk _ = _
    conv_rhs => rw [show (pre ++ "\x7b\x7b" ++ name ++ "\x7d\x7d" ++ post) =
      String.mk ((pre ++ "\x7b\x7b" ++ name ++ "\x7d\x7d" ++ post).data) from rfl]
    congr 1
    rw [show (pre ++ "\x7b\x7b" ++ name ++ "\x7d\x7d" ++ post).data =
      pre.toList ++ '\x7b' :: '\x7b' :: (name.toList ++ '\x7d' :: '\x7d' :: post.toList)
      from hT2data]
    simp [List.append_assoc]
  show resolveLoop ctx 5 _ = _
  rw [show resolveLoop ctx 5 (pre ++ "\x7b\x7b" ++ ws1 ++ name ++ ws2 ++ "\x7d\x7d" ++ post) =
    (if substOnce ctx (pre ++ "\x7b\x7b" ++ ws1 ++ name ++ ws2 ++ "\x7d\x7d" ++ post) =
        (pre ++ "\x7b\x7b" ++ ws1 ++ name ++ ws2 ++ "\x7d\x7d" ++ post) then
      (pre ++ "\x7b\x7b" ++ ws1 ++ name ++ ws2 ++ "\x7d\x7d" ++ post)
    else resolveLoop ctx 4
      (substOnce ctx (pre ++ "\x7b\x7b" ++ ws1 ++ name ++ ws2 ++ "\x7d\x7d" ++ post)))
    from rfl]
  rw [hsub1]
  by_cases heq : (pre ++ "\x7b\x7b" ++ name ++ "\x7d\x7d" ++ post) =
      (pre ++ "\x7b\x7b" ++ ws1 ++ name ++ ws2 ++ "\x7d\x7d" ++ post)
  · rw [if_pos heq]
    exact heq.symm
  · rw [if_neg heq]
    exact resolveLoop_fix hsub2 4

theorem claim6_witness :
    resolveStr [] "Hello \x7b\x7b foo \x7d\x7d!" = "Hello \x7b\x7bfoo\x7d\x7d!" := by
  have h := claim6_absent_reference_amended [] "Hello " " " "foo" " " "!"
    (by decide) (by decide) (by decide) (by decide) (by decide) (by decide) rfl
  simpa using h

/-- C7: the resolver always terminates, performing at most 5 substitution
passes and stopping early when a pass changes nothing; a string with no
remaining double-brace match is a fixed point of substitution; the
cyclic context where a and b reference each other terminates with a
concrete value after the 5-pass bound. -/
theorem claim7_resolver_bounded :
    ∀ (ctx : Dict) (t : String),
      (∃ k ≤ 5, resolveStr ctx t = (substOnce ctx)^[k] t) ∧
      (substOnce ctx t = t → resolveStr ctx t = t) ∧
      (hasMatchL t.toList = false → substOnce ctx t = t) ∧
      resolveStr [("a", .str "\x7b\x7bb\x7d\x7d"), ("b", .str "\x7b\x7ba\x7d\x7d")]
        "\x7b\x7ba\x7d\x7d" = "\x7b\x7bb\x7d\x7d" := by
  intro ctx t
  refine ⟨resolveLoop_iterate ctx 5 t, fun h => resolveLoop_fix h 5, fun h => ?_, by decide⟩
  unfold substOnce
  rw [substPass_of_no_match ctx h]
  rfl

theorem claim7_witness :
    substOnce [] "no refs here" = "no refs here" :=
  (claim7_resolver_bounded [] "no refs here").2.2.1 (by decide)

/-- C9: a parsed vision response claiming found with any of the six
numeric fields missing or non-numeric is downgraded to found=false with
a diagnostic note appended to its reasoning; the validated result is
never truthy on found with a missing or non-numeric coordinate field.
Note that a Python bool passes the isinstance((int, float)) check and so
counts as numeric. -/
theorem claim9_vision_validation :
    ∀ (d : Dict) (raw cleaned : String),
      (pyTruthy (dGetD d "found" .null) = true →
        (∃ k ∈ visionKeys, badKeyAt d k = true) →
        dGetD (validate_parsed_coords raw cleaned d) "found" .null = .bool false) ∧
      (pyTruthy (dGetD (validate_parsed_coords raw cleaned d) "found" .null) = true →
        ∀ k, k ∈ visionKeys → ∃ v, dget (validate_parsed_coords raw cleaned d) k = some v ∧
          isNumericJ v = true) ∧
      (pyTruthy (dGetD d "found" .null) = true →
        (∃ k0 ∈ visionKeys, badKeyAt d k0 = true) →
        (∀ v, dget d "reasoning" = some v → ∃ s, v = .str s) →
        ∃ k r0, visionKeys.find? (badKeyAt d) = some k ∧
          dget (validate_parsed_coords raw cleaned d) "reasoning" =
            some (.str (r0 ++ " Invalid coord: " ++ k ++ "."))) := by
  intro d raw cleaned
  have hfoundKey : pyTruthy (dGetD d "found" .null) = true → hasKey d "found" = true := by
    intro hf
    unfold dGetD at hf
    cases hdg : dget d "found" with
    | none => rw [hdg] at hf; simp [pyTruthy] at hf
    | some v => simp [hasKey, hdg]
  have hne1 : ("found" : String) ≠ "raw_output" := by decide
  have hne2 : ("found" : String) ≠ "reasoning" := by decide
  have hne3 : ("reasoning" : String) ≠ "raw_output" := by decide
  refine ⟨?_, ?_, ?_⟩
  · intro hfound hbad
    have hk := hfoundKey hfound
    unfold validate_parsed_coords
    rw [if_neg (by simp [hk]), if_pos hfound]
    have hsome : (visionKeys.find? (badKeyAt d)).isSome := by
      rw [List.find?_isSome]; exact hbad
    obtain ⟨k, hfind⟩ := Option.isSome_iff_exists.mp hsome
    rw [hfind]
    cases hre : dget d "reasoning" with
    | none =>
      dsimp only
      unfold dGetD
      rw [dget_dset_ne _ _ _ _ hne1, dget_dset_ne _ _ _ _ hne2, dget_dset_self]
      rfl
    | some v =>
      cases v with
      | str s =>
        dsimp only
        unfold dGetD
        rw [dget_dset_ne _ _ _ _ hne1, dget_dset_ne _ _ _ _ hne2, dget_dset_self]
        rfl
      | null => rfl
      | bool b => rfl
      | num n => rfl
      | list l => rfl
  · intro hf k hkmem
    unfold validate_parsed_coords at hf ⊢
    by_cases hkey : hasKey d "found" = false
    · rw [if_pos hkey] at hf ⊢
      have hval : dGetD [("found", JVal.bool false),
          ("reasoning", JVal.str "Malformed JSON from vision."),
          ("raw", JVal.str cleaned)] "found" JVal.null = JVal.bool false := rfl
      rw [hval] at hf
      simp [pyTruthy] at hf
    · rw [if_neg hkey] at hf ⊢
      by_cases hft : pyTruthy (dGetD d "found" .null) = true
      · rw [if_pos hft] at hf ⊢
        cases hfind : visionKeys.find? (badKeyAt d) with
        | none =>
          dsimp only at hf ⊢
          have hgood : badKeyAt d k = false := by
            have := List.find?_eq_none.mp hfind k hkmem
            simpa using this
          unfold badKeyAt at hgood
          have hkne : k ≠ "raw_output" := by
            have hall : ∀ x ∈ visionKeys, x ≠ "raw_output" := by decide
            exact hall k hkmem
          rw [dget_dset_ne _ _ _ _ hkne]
          cases hdg : dget d k with
          | none => rw [hdg] at hgood; simp at hgood
          | some v =>
            refine ⟨v, rfl, ?_⟩
            rw [hdg] at hgood
            cases v with
            | null => simp at hgood
            | bool b => rfl
            | num n => rfl
            | str s => simp [isNumericJ] at hgood
            | list l => simp [isNumericJ] at hgood
        | some k0 =>
          rw [hfind] at hf
          cases hre : dget d "reasoning" with
          | none =>
            rw [hre] at hf
            unfold dGetD at hf
            rw [dget_dset_ne _ _ _ _ hne1, dget_dset_ne _ _ _ _ hne2, dget_dset_self] at hf
            simp [pyTruthy] at hf
          | some v =>
            rw [hre] at hf
            cases v with
            | str s =>
              unfold dGetD at hf
              rw [dget_dset_ne _ _ _ _ hne1, dget_dset_ne _ _ _ _ hne2,
                dget_dset_self] at hf
              simp [pyTruthy] at hf
            | null => simp [dGetD, dget, List.find?, pyTruthy] at hf
            | bool b => simp [dGetD, dget, List.find?, pyTruthy] at hf
            | num n => simp [dGetD, dget, List.find?, pyTruthy] at hf
            | list l => simp [dGetD, dget, List.find?, pyTruthy] at hf
      · rw [if_neg hft] at hf ⊢
        unfold dGetD at hf hft
        rw [dget_dset_ne _ _ _ _ (show ("found" : String) ≠ "raw_output" by decide)] at hf
        exact absurd hf hft
  · intro hfound hbad hreason
    have hk := hfoundKey hfound
    unfold validate_parsed_coords
    rw [if_neg (by simp [hk]), if_pos hfound]
    have hsome : (visionKeys.find? (badKeyAt d)).isSome := by
      rw [List.find?_isSome]; exact hbad
    obtain ⟨k, hfind⟩ := Option.isSome_iff_exists.mp hsome
    rw [hfind]
    cases hre : dget d "reasoning" with
    | none =>
      dsimp only
      refine ⟨k, "", rfl, ?_⟩
      rw [dget_dset_ne _ _ _ _ hne3, dget_dset_self]
      rfl
    | some v =>
      obtain ⟨s, hs⟩ := hreason v hre
      subst hs
      dsimp only
      refine ⟨k, s, rfl, ?_⟩
      rw [dget_dset_ne _ _ _ _ hne3, dget_dset_self]

theorem claim9_witness :
    dGetD (validate_parsed_coords "" ""
      [("found", JVal.bool true), ("x_center", JVal.str "oops"), ("y_center", JVal.num 1),
       ("x_top_left", JVal.num 1), ("y_top_left", JVal.num 1), ("width", JVal.num 1),
       ("height", JVal.num 1), ("reasoning", JVal.str "ok")]) "found" JVal.null =
      JVal.bool false :=
  (claim9_vision_validation
    [("found", JVal.bool true), ("x_center", JVal.str "oops"), ("y_center", JVal.num 1),
     ("x_top_left", JVal.num 1), ("y_top_left", JVal.num 1), ("width", JVal.num 1),
     ("height", JVal.num 1), ("reasoning", JVal.str "ok")] "" "").1 (by decide)
    ⟨"x_center", by decide, by decide⟩

theorem execute_action_dispatch (svc : Services) (step : ActionStep) (ctx : Dict)
    (h1 : (!svc.hasOS && !(osExempt.contains step.action_type)) = false)
    (h2 : (!svc.hasPerception && visionActions.contains step.action_type) = false)
    (h3 : (!svc.hasAccessibility && accActions.contains step.action_type) = false)
    (h4 : (!svc.hasGemini && step.action_type == "generate_text_content") = false) :
    execute_action svc step ctx =
      (dispatchAction svc step.action_type step.parameters ctx
        (get_effective_target_title step.parameters ctx)).map
        (postProcess step.action_type) := by
  unfold execute_action
  dsimp only
  rw [if_neg (by rw [h1]; simp), if_neg (by rw [h2]; simp), if_neg (by rw [h3]; simp),
    if_neg (by rw [h4]; simp)]

theorem effT_of_target (ctx : Dict) (T : String) (params : Dict)
    (hT : resolveStr ctx T = T) (hT0 : T.isEmpty = false)
    (hp : dget params "target_window_title" = some (.str T)) :
    get_effective_target_title params ctx = .str T := by
  unfold get_effective_target_title dGetD
  rw [hp]
  simp [resolve_context_variable, hT, pyTruthy, hT0]

/-- C4: when the accessibility tier cannot resolve the target window of a
click or type step, execute_action fails immediately with an error
naming the missing window and no vision locate call occurs in the
trace. -/
theorem claim4_window_not_found_short_circuit :
    ∀ (svc : Services) (ctx : Dict) (T E X : String),
      svc.hasOS = true → svc.hasAccessibility = true →
      resolveStr ctx T = T → T.isEmpty = false →
      resolveStr ctx E = E → E.isEmpty = false →
      X.isEmpty = false →
      svc.getWindow (.str T) = none →
      (execute_action svc
        ⟨"click_element_by_accessibility",
          [("target_window_title", .str T), ("element_name", .str E)]⟩ ctx =
        some ⟨false, some [("error", .str ("Window \x27" ++ T ++
          "\x27 not found for accessibility click."))], [.evGetWindow (.str T)]⟩) ∧
      hasVisionEvent [Event.evGetWindow (.str T)] = false ∧
      (execute_action svc
        ⟨"type_text_into_element_by_accessibility",
          [("target_window_title", .str T), ("element_name", .str E),
           ("text_to_type", .str X)]⟩ ctx =
        some ⟨false, some [("error", .str ("Window \x27" ++ T ++
          "\x27 not found for accessibility typing."))], [.evGetWindow (.str T)]⟩) := by
  intro svc ctx T E X hOS hAcc hT hT0 hE hE0 hX0 hwin
  have hdget : ∀ (pfx : Dict), dget (("target_window_title", JVal.str T) :: pfx)
      "target_window_title" = some (.str T) := by
    intro pfx
    rw [dget_cons]
    simp
  refine ⟨?_, rfl, ?_⟩
  · rw [execute_action_dispatch svc _ ctx (by simp [hOS])
      (by simp only [show visionActions.contains "click_element_by_accessibility" = false
        from by decide, Bool.and_false])
      (by simp [hAcc])
      (by simp [show (("click_element_by_accessibility" : String) ==
        "generate_text_content") = false from by decide])]
    dsimp only [dispatchAction]
    rw [effT_of_target ctx T _ hT hT0 (hdget _)]
    unfold handleAccClick
    dsimp only
    have h1 : dGetD [("target_window_title", JVal.str T), ("element_name", JVal.str E)]
        "target_window_title" JVal.null = .str T := by
      unfold dGetD
      rw [hdget]
      rfl
    have h2 : dGetD [("target_window_title", JVal.str T), ("element_name", JVal.str E)]
        "element_name" JVal.null = .str E := by
      unfold dGetD dget
      simp [List.find?]
    rw [h1, h2]
    simp only [resolve_context_variable, hT, hE]
    rw [if_neg (by simp [pyOr, pyTruthy, hT0, hE0, dGetD, dget, List.find?])]
    have hpy : pyOr (JVal.str T) (JVal.str T) = JVal.str T := by
      simp [pyOr, pyTruthy, hT0]
    rw [hpy, hwin]
    simp [postProcess, ensureError, hasKey, dget, List.find?, pyStr]
  · rw [execute_action_dispatch svc _ ctx (by simp [hOS])
      (by simp only [show visionActions.contains "type_text_into_element_by_accessibility" =
        false from by decide, Bool.and_false])
      (by simp [hAcc])
      (by simp [show (("type_text_into_element_by_accessibility" : String) ==
        "generate_text_content") = false from by decide])]
    dsimp only [dispatchAction]
    rw [effT_of_target ctx T _ hT hT0 (hdget _)]
    unfold handleAccType
    dsimp only
    have h1 : dGetD [("target_window_title", JVal.str T), ("element_name", JVal.str E),
        ("text_to_type", JVal.str X)] "target_window_title" JVal.null = .str T := by
      unfold dGetD
      rw [hdget]
      rfl
    have h2 : dGetD [("target_window_title", JVal.str T), ("element_name", JVal.str E),
        ("text_to_type", JVal.str X)] "element_name" JVal.null = .str E := by
      unfold dGetD dget
      simp [List.find?]
    have h3 : dGetD [("target_window_title", JVal.str T), ("element_name", JVal.str E),
        ("text_to_type", JVal.str X)] "text_to_type" JVal.null = .str X := by
      unfold dGetD dget
      simp [List.find?]
    rw [h1, h2, h3]
    simp only [resolve_context_variable, hT, hE]
    rw [if_neg (by simp [pyOr, pyTruthy, hT0, hE0, hX0, dGetD, dget, List.find?])]
    rw [if_neg (by simp [resolve_context_variable])]
    have hpy : pyOr (JVal.str T) (JVal.str T) = JVal.str T := by
      simp [pyOr, pyTruthy, hT0]
    rw [hpy, hwin]
    simp [postProcess, ensureError, hasKey, dget, List.find?, pyStr]

theorem claim4_witness :
    execute_action
      { mockSvc with getWindow := fun _ => none }
      ⟨"click_element_by_accessibility",
        [("target_window_title", .str "Calculator"), ("element_name", .str "Seven")]⟩ [] =
      some ⟨false, some [("error", .str
        "Window \x27Calculator\x27 not found for accessibility click.")],
        [.evGetWindow (.str "Calculator")]⟩ :=
  (claim4_window_not_found_short_circuit { mockSvc with getWindow := fun _ => none } []
    "Calculator" "Seven" "hi" (by decide) (by decide) (by decide) (by decide) (by decide)
    (by decide) (by decide) rfl).1

/-- C10: the generate_text_content handler fails whenever the backend
text contains the substring error in any letter case, even if otherwise
non-empty; it succeeds only when the text is non-empty and free of that
substring. -/
theorem claim10_generate_error_substring :
    ∀ (svc : Services) (ctx : Dict) (P S : String),
      svc.hasGemini = true →
      resolveStr ctx P = P → P.isEmpty = false →
      (∀ t, svc.generateText (.str P) = some t → strContainsB (pyLower t) "error" = true →
        execute_action svc
          ⟨"generate_text_content",
            [("prompt_for_generation", .str P), ("store_result_as", .str S)]⟩ ctx =
          some ⟨false, some [("error", .str ("Failed text gen. Resp: " ++ t))],
            [.evGenerate]⟩) ∧
      (∀ r, execute_action svc
          ⟨"generate_text_content",
            [("prompt_for_generation", .str P), ("store_result_as", .str S)]⟩ ctx =
            some r →
        r.success = true →
        ∃ t, svc.generateText (.str P) = some t ∧ t.isEmpty = false ∧
          strContainsB (pyLower t) "error" = false) := by
  intro svc ctx P S hg hP hP0
  have hred : execute_action svc
      ⟨"generate_text_content",
        [("prompt_for_generation", .str P), ("store_result_as", .str S)]⟩ ctx =
      ((match svc.generateText (.str P) with
        | some t =>
          if !t.isEmpty && !strContainsB (pyLower t) "error" then
            some (ExecResult.mk true
              (some [(S, .str t), ("info", .str "Text content generated.")]) [.evGenerate])
          else
            some (ExecResult.mk false
              (some [("error", .str ("Failed text gen. Resp: " ++ t))]) [.evGenerate])
        | none =>
          some (ExecResult.mk false
            (some [("error", .str "Failed text gen. Resp: None")]) [.evGenerate])) :
        Option ExecResult).map (postProcess "generate_text_content") := by
    rw [execute_action_dispatch svc _ ctx
      (by simp only [show osExempt.contains "generate_text_content" = true from by decide,
        Bool.not_true, Bool.and_false])
      (by simp only [show visionActions.contains "generate_text_content" = false from
        by decide, Bool.and_false])
      (by simp only [show accActions.contains "generate_text_content" = false from
        by decide, Bool.and_false])
      (by simp [hg])]
    dsimp only [dispatchAction]
    unfold handleGenerate
    dsimp only
    have hp : dGetD [("prompt_for_generation", JVal.str P), ("store_result_as", JVal.str S)]
        "prompt_for_generation" JVal.null = .str P := by
      unfold dGetD dget
      simp [List.find?]
    have hs : dGetD [("prompt_for_generation", JVal.str P), ("store_result_as", JVal.str S)]
        "store_result_as" (JVal.str "generated_text_content") = .str S := by
      unfold dGetD dget
      simp [List.find?]
    rw [hp, hs]
    simp only [resolve_context_variable, hP]
    rw [if_neg (by simp [pyTruthy, hP0]), if_neg (by simp [hg])]
    rfl
  constructor
  · intro t hgen hcon
    rw [hred, hgen]
    dsimp only
    rw [if_neg (by simp [hcon])]
    simp [postProcess, ensureError, hasKey, dget, List.find?]
  · intro r hr hsucc
    rw [hred] at hr
    cases hgen : svc.generateText (.str P) with
    | none =>
      rw [hgen] at hr
      simp only [Option.map_some'] at hr
      injection hr with hr
      rw [← hr] at hsucc
      simp [postProcess] at hsucc
    | some t =>
      rw [hgen] at hr
      dsimp only at hr
      by_cases hcond : (!t.isEmpty && !strContainsB (pyLower t) "error") = true
      · simp only [Bool.and_eq_true, Bool.not_eq_true'] at hcond
        exact ⟨t, rfl, hcond.1, hcond.2⟩
      · rw [if_neg hcond] at hr
        simp only [Option.map_some'] at hr
        injection hr with hr
        rw [← hr] at hsucc
        simp [postProcess] at hsucc

theorem claim10_witness :
    execute_action
      { mockSvc with generateText := fun _ => some "Sorry, an ERROR occurred" }
      ⟨"generate_text_content",
        [("prompt_for_generation", .str "write a poem"),
         ("store_result_as", .str "poem")]⟩ [] =
      some ⟨false, some [("error", .str
        "Failed text gen. Resp: Sorry, an ERROR occurred")], [.evGenerate]⟩ :=
  (claim10_generate_error_substring
    { mockSvc with generateText := fun _ => some "Sorry, an ERROR occurred" } []
    "write a poem" "poem" rfl (by decide) (by decide)).1
    "Sorry, an ERROR occurred" rfl (by decide)

/-- C1: when the accessibility tier resolves the window but the element
lookup or click fails, and the vision backend locates the element so the
translated raw click succeeds, execute_action returns success with result
data holding both the accessibility-failure warning key and the
vision-derived success info. -/
theorem claim1_acc_vision_fallback :
    ∀ (svc : Services) (ctx : Dict) (T E w : String) (cd : Dict)
      (sb : Option (Int × Int × Int × Int)) (rx ry : Int) (ax ay : JVal),
      svc.hasOS = true → svc.hasAccessibility = true → svc.hasPerception = true →
      resolveStr ctx T = T → T.isEmpty = false →
      resolveStr ctx E = E → E.isEmpty = false →
      svc.getWindow (.str T) = some w →
      accClickTry svc w (.str E) .null .null .null .null = false →
      svc.activateWindow (.str T) = true →
      svc.visionLocate (.str E) (.str T) (.str "") = (some cd, sb) →
      cd.isEmpty = false →
      pyTruthy (dGetD cd "found" .null) = true →
      dget cd "x_center" = some (.num rx) →
      dget cd "y_center" = some (.num ry) →
      mapCoords (.num rx) (.num ry) sb = some (ax, ay) →
      svc.clickAt ax ay = true →
      (execute_action svc
        ⟨"click_element_by_accessibility",
          [("target_window_title", .str T), ("element_name", .str E)]⟩ ctx =
        some ⟨true,
          some [("warning_accessibility_failed", .str ("Element \x27" ++ E ++
            "\x27 (type: " ++ "None" ++
            ") not found or click failed via accessibility in \x27" ++
            T ++ "\x27.")),
            ("info", .str ("Clicked (fallback vision) \x27" ++ E ++ "\x27 at (" ++
              pyStr ax ++ "," ++ pyStr ay ++ ")."))],
          [.evGetWindow (.str T), .evActivateWindow (.str T), .evVisionLocate (.str E),
           .evClickAt ax ay]⟩) ∧
      hasKey [("warning_accessibility_failed", JVal.str ("Element \x27" ++ E ++
          "\x27 (type: " ++ "None" ++
          ") not found or click failed via accessibility in \x27" ++
          T ++ "\x27.")),
        ("info", JVal.str ("Clicked (fallback vision) \x27" ++ E ++ "\x27 at (" ++
          pyStr ax ++ "," ++ pyStr ay ++ ")."))] "warning_accessibility_failed" = true := by
  intro svc ctx T E w cd sb rx ry ax ay hOS hAcc hPer hT hT0 hE hE0 hw hacc hact hvl
    hcd0 hfound hxc hyc hmap hclick
  refine ⟨?_, rfl⟩
  have hdget : dget [("target_window_title", JVal.str T), ("element_name", JVal.str E)]
      "target_window_title" = some (.str T) := by
    rw [dget_cons]
    simp
  rw [execute_action_dispatch svc _ ctx (by simp [hOS])
    (by simp only [show visionActions.contains "click_element_by_accessibility" = false
      from by decide, Bool.and_false])
    (by simp [hAcc])
    (by simp [show (("click_element_by_accessibility" : String) ==
      "generate_text_content") = false from by decide])]
  dsimp only [dispatchAction]
  rw [effT_of_target ctx T _ hT hT0 hdget]
  unfold handleAccClick
  dsimp only
  have h1 : dGetD [("target_window_title", JVal.str T), ("element_name", JVal.str E)]
      "target_window_title" JVal.null = .str T := by
    unfold dGetD
    rw [hdget]
    rfl
  have h2 : dGetD [("target_window_title", JVal.str T), ("element_name", JVal.str E)]
      "element_name" JVal.null = .str E := by
    unfold dGetD dget
    simp [List.find?]
  have h3 : ∀ k, k ≠ "target_window_title" → k ≠ "element_name" →
      dGetD [("target_window_title", JVal.str T), ("element_name", JVal.str E)] k
        JVal.null = JVal.null := by
    intro k hk1 hk2
    unfold dGetD dget
    rw [List.find?_cons_of_neg _ (by
        intro hc
        simp only [beq_iff_eq] at hc
        exact hk1 hc.symm),
      List.find?_cons_of_neg _ (by
        intro hc
        simp only [beq_iff_eq] at hc
        exact hk2 hc.symm)]
    rfl
  rw [h1, h2, h3 "control_type" (by decide) (by decide),
    h3 "automation_id" (by decide) (by decide), h3 "framework_id" (by decide) (by decide),
    h3 "class_name_re" (by decide) (by decide),
    h3 "element_description" (by decide) (by decide)]
  simp only [resolve_context_variable, hT, hE]
  have hpyT : pyOr (JVal.str T) (JVal.str T) = JVal.str T := by
    simp [pyOr, pyTruthy, hT0]
  have hpyE : pyOr (JVal.str E) (pyOr JVal.null (JVal.str "the described element")) =
      JVal.str E := by
    simp [pyOr, pyTruthy, hE0]
  rw [hpyT, hpyE]
  rw [if_neg (by simp [pyTruthy, hT0, hE0])]
  rw [hw]
  dsimp only
  rw [hacc]
  rw [if_neg (by simp)]
  rw [hPer]
  rw [if_neg (by simp)]
  rw [hact]
  rw [if_neg (by simp)]
  rw [if_pos (by simp [pyTruthy, hT0])]
  unfold visionFallbackClick
  rw [hvl]
  dsimp only
  have hhit : visionHit (some cd) = true := by
    unfold visionHit xCenterNotNone
    dsimp only
    rw [hxc]
    simp [hcd0, hfound]
  rw [hhit, if_pos rfl]
  rw [hxc, hyc]
  dsimp only
  rw [hmap]
  dsimp only
  rw [hclick, if_pos rfl]
  have hpyE2 : pyOr (JVal.str E) JVal.null = JVal.str E := by
    simp [pyOr, pyTruthy, hE0]
  simp [postProcess, dset, pyStr, hpyE2,
    show (("warning_accessibility_failed" : String) == "info") = false from by decide]

theorem claim1_witness :
    execute_action { mockSvc with clickElement := fun _ => false }
      ⟨"click_element_by_accessibility",
        [("target_window_title", .str "Calculator"), ("element_name", .str "Seven")]⟩ [] =
      some ⟨true,
        some [("warning_accessibility_failed", .str
          "Element \x27Seven\x27 (type: None) not found or click failed via accessibility in \x27Calculator\x27."),
          ("info", .str "Clicked (fallback vision) \x27Seven\x27 at (130,115).")],
        [.evGetWindow (.str "Calculator"), .evActivateWindow (.str "Calculator"),
         .evVisionLocate (.str "Seven"), .evClickAt (.num 130) (.num 115)]⟩ := by
  have h := (claim1_acc_vision_fallback { mockSvc with clickElement := fun _ => false }
    [] "Calculator" "Seven" "Calculator"
    [("found", .bool true), ("x_center", .num 30), ("y_center", .num 15),
     ("x_top_left", .num 5), ("y_top_left", .num 0), ("width", .num 50),
     ("height", .num 30), ("confidence", .num 1)]
    (some (100, 100, 800, 600)) 30 15 (.num 130) (.num 115)
    rfl rfl rfl (by decide) (by decide) (by decide) (by decide) rfl (by decide) rfl rfl
    (by decide) (by decide) (by decide) (by decide) (by decide) rfl).1
  exact h
